import Mathlib

/-
Verification development for the Asteroids game (game.js, the restored
full-featured build occupying lines 277-913 of the concatenated source).

Modelling conventions, fixed once here:

* All numeric state is modelled over the exact rationals.  The JS program
  computes with IEEE doubles; the embedding treats arithmetic as exact,
  which is the usual idealisation for reasoning about this kind of code.
* Calls to Math.random (and values derived from it, such as randRange
  results) are inputs of the model: each function that draws randomness
  takes the drawn values as explicit arguments, together with a validity
  predicate expressing the interval the source draws them from.
* Calls to trigonometric functions (Math.cos, Math.sin, Math.atan2) are
  likewise supplied as inputs: wherever the source computes cos(a), sin(a)
  of an angle, the model takes the pair of values as an oracle input;
  validity asks cc*cc + ss*ss = 1 where relevant.
* Math.sqrt and Math.hypot appear in the source only in two roles:
  (1) compared against a radius in collision tests - modelled by the
  decidable predicate distLt below, proved equivalent to the real
  square-root comparison; (2) accumulated into a bullet distance counter -
  modelled by hypot below via an exact rational square root, proved to
  agree with the real square root on inputs whose squared norm is a
  perfect rational square (every concrete use in this development).
* Audio and canvas-drawing calls are side effects outside the simulation
  state and are not modelled; comments mark where the source performs them.
-/

namespace Asteroids

/-! ## Numeric helpers: the JS remainder operator and square roots -/
/-- Truncation toward zero of a rational, as JS ToInteger does inside the
remainder operator: num/den with integer division truncating toward zero. -/
def ratTrunc (q : ℚ) : ℤ := Int.tdiv q.num (q.den : ℤ)

/-- The JS remainder operator a % b (sign of the dividend, truncating):
a - b * trunc(a / b). -/
def jsRem (a b : ℚ) : ℚ := a - b * (ratTrunc (a / b) : ℚ)

/-- Source, game.js line 420: function wrapX(x) returns (x + w) % w. -/
def wrapX (w x : ℚ) : ℚ := jsRem (x + w) w

/-- Source, game.js line 421: function wrapY(y) returns (y + h) % h. -/
def wrapY (h y : ℚ) : ℚ := jsRem (y + h) h

/-- Exact rational square root: on a rational whose numerator and
denominator are perfect squares it returns the exact root (the only way
the model evaluates it; see ratSqrt_sq). -/
def ratSqrt (q : ℚ) : ℚ := (Nat.sqrt q.num.toNat : ℚ) / (Nat.sqrt q.den : ℚ)

/-- Model of Math.hypot(dx, dy): the length of the vector (dx, dy). -/
def hypot (dx dy : ℚ) : ℚ := ratSqrt (dx * dx + dy * dy)

/-- Source, game.js line 422: dist(ax, ay, bx, by) = Math.hypot(ax-bx, ay-by);
every use in the source compares it with a radius bound r.  distLt is that
comparison, kept inside the rationals; distLt_iff_real_dist proves it
equivalent to the source comparison read over the reals. -/
def distLt (px py qx qy r : ℚ) : Prop :=
  0 < r ∧ (px - qx) * (px - qx) + (py - qy) * (py - qy) < r * r

instance (px py qx qy r : ℚ) : Decidable (distLt px py qx qy r) := by
  unfold distLt; infer_instance

/-! ## Entities (game.js lines 427-631)

Fields carry the source names.  Randomness and trigonometry enter as
explicit draw arguments, per the conventions in the header comment. -/
/-- Source, game.js lines 447-458 (class Ship, constructor fields) plus
lives and invuln.  The initial heading -Math.PI/2 is irrational, so the
fresh-ship heading is the parameter a0 of Ship.init; the heading never
influences the rational state except through its cosine and sine, which
the model receives as oracle inputs. -/
structure Ship where
  x : ℚ
  y : ℚ
  a : ℚ
  r : ℚ
  rot : ℚ
  vx : ℚ
  vy : ℚ
  thrusting : Bool
  lives : ℤ
  invuln : ℤ
deriving Repr, DecidableEq

/-- Source, game.js lines 448-457: new Ship() places the ship at the
screen centre with 3 lives, no velocity, no invulnerability. -/
def Ship.init (w h a0 : ℚ) : Ship :=
  { x := w / 2, y := h / 2, a := a0, r := 15, rot := 0, vx := 0, vy := 0
    thrusting := false, lives := 3, invuln := 0 }

/-- Source, game.js lines 459-472 (Ship.update).  cosA and sinA stand for
Math.cos(this.a), Math.sin(this.a) evaluated after the rotation step; the
startThrust / stopThrust calls there are audio side effects. -/
def Ship.update (w h cosA sinA : ℚ) (s : Ship) : Ship :=
  let a := s.a + s.rot
  let vx := (if s.thrusting then s.vx + 0.08 * cosA else s.vx) * 0.995
  let vy := (if s.thrusting then s.vy + 0.08 * sinA else s.vy) * 0.995
  let x := wrapX w (s.x + vx)
  let y := wrapY h (s.y + vy)
  let invuln := if 0 < s.invuln then s.invuln - 1 else s.invuln
  { s with a := a, vx := vx, vy := vy, x := x, y := y, invuln := invuln }

/-- Source, game.js lines 510-517 (class Bullet, constructor): BULLET_SPEED
is 6 and BULLET_SCREEN_TRAVEL is 1.5; cc and ss stand for Math.cos(a),
Math.sin(a) of the firing angle. -/
structure Bullet where
  x : ℚ
  y : ℚ
  dx : ℚ
  dy : ℚ
  dist : ℚ
  maxDist : ℚ
deriving Repr, DecidableEq

def mkBullet (w h x y cc ss : ℚ) : Bullet :=
  { x := x, y := y, dx := 6 * cc, dy := 6 * ss, dist := 0
    maxDist := max w h * 1.5 }

/-- Source, game.js lines 518-522 (Bullet.update). -/
def Bullet.update (w h : ℚ) (b : Bullet) : Bullet :=
  { b with x := wrapX w (b.x + b.dx), y := wrapY h (b.y + b.dy)
           dist := b.dist + hypot b.dx b.dy }

/-- Source, game.js line 523: get alive() returns this.dist < this.maxDist.
The getter reads two fields and writes nothing, so it is a pure
predicate of the bullet value. -/
def Bullet.alive (b : Bullet) : Prop := b.dist < b.maxDist

instance (b : Bullet) : Decidable b.alive := by unfold Bullet.alive; infer_instance

/-- Source, game.js lines 527-536 (class Asteroid).  The constructor draws
a direction angle and a speed in [0.2, 1.8) for the velocity and a noise
seed in [0, 1000); AstVel packages those drawn values. -/
structure Asteroid where
  x : ℚ
  y : ℚ
  r : ℚ
  dx : ℚ
  dy : ℚ
  noise : ℚ
deriving Repr, DecidableEq

/-- Velocity-and-noise draw of the Asteroid constructor: dx, dy stand for
cos(ang)*spd, sin(ang)*spd. -/
structure AstVel where
  dx : ℚ
  dy : ℚ
  noise : ℚ
deriving Repr, DecidableEq

/-- The squared speed lies in [0.04, 3.24) since spd is drawn from
[0.2, 1.8), and the noise seed in [0, 1000). -/
def AstVel.Valid (v : AstVel) : Prop :=
  1/25 ≤ v.dx * v.dx + v.dy * v.dy ∧ v.dx * v.dx + v.dy * v.dy < 81/25 ∧
    0 ≤ v.noise ∧ v.noise < 1000

def mkAsteroid (x y r : ℚ) (v : AstVel) : Asteroid :=
  { x := x, y := y, r := r, dx := v.dx, dy := v.dy, noise := v.noise }

/-- Source, game.js line 536 (Asteroid.update). -/
def Asteroid.update (w h : ℚ) (a : Asteroid) : Asteroid :=
  { a with x := wrapX w (a.x + a.dx), y := wrapY h (a.y + a.dy) }

/-- Source, game.js lines 620-627 (class SaucerBullet): speed 5.5, same
travel bound as the player bullet. -/
structure SaucerBullet where
  x : ℚ
  y : ℚ
  dx : ℚ
  dy : ℚ
  dist : ℚ
  maxDist : ℚ
deriving Repr, DecidableEq

def mkSaucerBullet (w h x y cc ss : ℚ) : SaucerBullet :=
  { x := x, y := y, dx := 5.5 * cc, dy := 5.5 * ss, dist := 0
    maxDist := max w h * 1.5 }

/-- Source, game.js line 628 (SaucerBullet.update). -/
def SaucerBullet.update (w h : ℚ) (b : SaucerBullet) : SaucerBullet :=
  { b with x := wrapX w (b.x + b.dx), y := wrapY h (b.y + b.dy)
           dist := b.dist + hypot b.dx b.dy }

/-- Source, game.js line 629: get alive() for the saucer bullet. -/
def SaucerBullet.alive (b : SaucerBullet) : Prop := b.dist < b.maxDist

instance (b : SaucerBullet) : Decidable b.alive := by
  unfold SaucerBullet.alive; infer_instance

/-- Source, game.js lines 560-569 (class Saucer, constructor fields). -/
structure Saucer where
  side : ℤ
  x : ℚ
  y : ℚ
  speed : ℚ
  r : ℚ
  fireTimer : ℚ
  alive : Bool
deriving Repr, DecidableEq

/-- Draws of the Saucer constructor: the side coin flip, y in [40, h-40],
the speed magnitude in [1.2, 2.0), the first fire delay in [600, 1400). -/
structure SaucerDraw where
  side : ℤ
  y : ℚ
  speed : ℚ
  fireTimer : ℚ
deriving Repr, DecidableEq

def SaucerDraw.Valid (h : ℚ) (d : SaucerDraw) : Prop :=
  (d.side = -1 ∨ d.side = 1) ∧ 40 ≤ d.y ∧ d.y ≤ h - 40 ∧
    6/5 ≤ d.speed ∧ d.speed < 2 ∧ 600 ≤ d.fireTimer ∧ d.fireTimer < 1400

/-- Source, game.js lines 561-568: a left-entering saucer (side = -1)
starts at x = -60 moving right, a right-entering one at w + 60 moving
left; radius 18, alive. -/
def mkSaucer (w : ℚ) (d : SaucerDraw) : Saucer :=
  { side := d.side, x := if d.side < 0 then -60 else w + 60, y := d.y
    speed := if d.side < 0 then d.speed else -d.speed, r := 18
    fireTimer := d.fireTimer, alive := true }

/-- Draws consumed when a saucer fires: the next fire delay in [600, 1400)
and cc, ss standing for cos, sin of atan2(ship.y - y, ship.x - x) plus the
inaccuracy draw from [-0.25, 0.25]. -/
structure SaucerFire where
  interval : ℚ
  cc : ℚ
  ss : ℚ
deriving Repr, DecidableEq

def SaucerFire.Valid (f : SaucerFire) : Prop :=
  600 ≤ f.interval ∧ f.interval < 1400 ∧ f.cc * f.cc + f.ss * f.ss = 1

/-- Source, game.js lines 570-603 (Saucer.update).  FRAME_RATE is 60, so
the motion scale is dt / (1000/60).  The body also stops the saucer sound
when liveness is cleared (audio side effect, not modelled).  Note the
firing block runs unconditionally after the leave-screen checks: it is not
gated on this.alive.  The (ship) truthiness test is always satisfied.
Returns the updated saucer and the fired bullet, if any. -/
def Saucer.update (w h dt : ℚ) (f : SaucerFire) (sc : Saucer) :
    Saucer × Option SaucerBullet :=
  let x := sc.x + sc.speed * (dt / (1000 / 60))
  let alive1 := if sc.side < 0 ∧ w + 80 < x then false else sc.alive
  let alive2 := if 0 < sc.side ∧ x < -80 then false else alive1
  let ft := sc.fireTimer - dt
  if ft ≤ 0 then
    ({ sc with x := x, alive := alive2, fireTimer := f.interval },
      some (mkSaucerBullet w h x sc.y f.cc f.ss))
  else
    ({ sc with x := x, alive := alive2, fireTimer := ft }, none)

/-- Source, game.js lines 427-435 (class Particle). -/
structure Particle where
  x : ℚ
  y : ℚ
  vx : ℚ
  vy : ℚ
  life : ℤ
  size : ℚ
deriving Repr, DecidableEq

/-- Draws of the Particle constructor: vx, vy in [-1.6, 1.6], the raw life
in [18, 42) (floored on construction), size in [1, 3). -/
structure PDraw where
  vx : ℚ
  vy : ℚ
  liferaw : ℚ
  size : ℚ
deriving Repr, DecidableEq

def PDraw.Valid (d : PDraw) : Prop :=
  -8/5 ≤ d.vx ∧ d.vx ≤ 8/5 ∧ -8/5 ≤ d.vy ∧ d.vy ≤ 8/5 ∧
    18 ≤ d.liferaw ∧ d.liferaw < 42 ∧ 1 ≤ d.size ∧ d.size < 3

def mkParticle (x y : ℚ) (d : PDraw) : Particle :=
  { x := x, y := y, vx := d.vx, vy := d.vy, life := ⌊d.liferaw⌋, size := d.size }

/-- Source, game.js line 435 (Particle.update): no wrap. -/
def Particle.update (p : Particle) : Particle :=
  { p with x := p.x + p.vx, y := p.y + p.vy, life := p.life - 1 }

/-- Source, game.js lines 706-709 (explodeAt): pushes amount particles at
(x, y); the playBuffer call is an audio side effect. -/
def explodeAt (x y : ℚ) (amount : ℕ) (pd : ℕ → PDraw) : List Particle :=
  (List.range amount).map (fun k => mkParticle x y (pd k))

/-! ## Game state and the main loop (game.js lines 636-902) -/
/-- Source, game.js lines 636-646: the module-level mutable state owned by
the loop. -/
structure GameState where
  ship : Ship
  bullets : List Bullet
  asteroids : List Asteroid
  particles : List Particle
  saucers : List Saucer
  saucerBullets : List SaucerBullet
  score : ℤ
  started : Bool
  gameOver : Bool
  lastTime : ℚ
  saucerNextSpawn : ℚ
deriving Repr, DecidableEq

/-- A random seed for one asteroid of resetAsteroids: position draws in
[0, w) x [0, h), radius draw in [26, 44), plus the constructor draws. -/
structure AstSeed where
  x : ℚ
  y : ℚ
  r : ℚ
  v : AstVel
deriving Repr, DecidableEq

def AstSeed.Valid (w h : ℚ) (s : AstSeed) : Prop :=
  0 ≤ s.x ∧ s.x < w ∧ 0 ≤ s.y ∧ s.y < h ∧ 26 ≤ s.r ∧ s.r < 44 ∧ s.v.Valid

/-- Source, game.js lines 648-651 (resetAsteroids): five asteroids from
five seeds. -/
def resetAsteroids (seeds : ℕ → AstSeed) : List Asteroid :=
  (List.range 5).map (fun i =>
    mkAsteroid (seeds i).x (seeds i).y (seeds i).r (seeds i).v)

/-- Scan a list from its last element toward its first and return the
index and element of the first match found, i.e. the largest matching
index.  This is the order of every splice-style collision scan in the
source (for loops with a decreasing index and a break). -/
def findLastIdxElem (p : α → Prop) [DecidablePred p] :
    List α → Option (ℕ × α)
  | [] => none
  | a :: as =>
    match findLastIdxElem p as with
    | some (k, x) => some (k + 1, x)
    | none => if p a then some (0, a) else none

/-- Source, game.js lines 570-603 applied to each saucer in order (loop at
line 749); the bullets each saucer pushes are collected in saucer order.
The index i keys the per-saucer fire draws. -/
def runSaucers (w h dt : ℚ) (fd : ℕ → SaucerFire) :
    List Saucer → ℕ → List Saucer × List SaucerBullet
  | [], _ => ([], [])
  | sc :: rest, i =>
    let su := Saucer.update w h dt (fd i) sc
    let rr := runSaucers w h dt fd rest (i + 1)
    (su.1 :: rr.1, (match su.2 with | some b => [b] | none => []) ++ rr.2)

/-- The slice of state the bullet-collision loop reads and writes. -/
structure HitSt where
  asteroids : List Asteroid
  saucers : List Saucer
  particles : List Particle
  score : ℤ
deriving Repr, DecidableEq

/-- Draws consumed by the bullet-collision loop for the bullet of index i:
explosion-particle draws and the two child-asteroid constructor draws. -/
structure BulletOracle where
  astPd : ℕ → ℕ → PDraw
  scPd : ℕ → ℕ → PDraw
  child1 : ℕ → AstVel
  child2 : ℕ → AstVel

/-- Source, game.js lines 754-788: the loop over bullets with decreasing
index i.  Each bullet first scans asteroids (decreasing j); on a hit it
spawns 10 particles, adds 100 to the score, removes itself and the
asteroid, and pushes two half-radius children when r exceeds 20.  A bullet
not consumed there scans saucers the same way for 1000 points.  The
recursion processes the tail (the larger indices) first, matching the
decreasing loop; survivors keep their order.  Also returns how many
asteroid kills and saucer kills occurred. -/
def procBullets (w h : ℚ) (orc : BulletOracle) :
    List Bullet → ℕ → HitSt → List Bullet × HitSt × ℕ × ℕ
  | [], _, st => ([], st, 0, 0)
  | b :: rest, i, st =>
    let pr := procBullets w h orc rest (i + 1) st
    let st1 := pr.2.1
    match findLastIdxElem (fun a => distLt b.x b.y a.x a.y a.r) st1.asteroids with
    | some (j, a) =>
      (pr.1,
        { st1 with
            particles := st1.particles ++ explodeAt a.x a.y 10 (orc.astPd i)
            score := st1.score + 100
            asteroids := st1.asteroids.eraseIdx j ++
              (if 20 < a.r then
                [mkAsteroid (a.x + 4) (a.y + 4) (a.r / 2) (orc.child1 i),
                 mkAsteroid (a.x - 4) (a.y - 4) (a.r / 2) (orc.child2 i)]
               else []) },
        pr.2.2.1 + 1, pr.2.2.2)
    | none =>
      match findLastIdxElem (fun sc => distLt b.x b.y sc.x sc.y sc.r) st1.saucers with
      | some (j, sc) =>
        (pr.1,
          { st1 with
              particles := st1.particles ++ explodeAt sc.x sc.y 16 (orc.scPd i)
              score := st1.score + 1000
              saucers := st1.saucers.eraseIdx j },
          pr.2.2.1, pr.2.2.2 + 1)
      | none => (b :: pr.1, st1, pr.2.2.1, pr.2.2.2)

/-- Source, game.js lines 790-804: saucer bullets against the ship,
skipped while invulnerable; the first hit found scanning from the end
costs a life, recentres the ship, grants 90 invulnerability frames,
removes the bullet, and raises gameOver when lives reach zero. -/
def shipVsSaucerBullets (w h : ℚ) (pd : ℕ → PDraw) (ship : Ship)
    (sbs : List SaucerBullet) (particles : List Particle) (gameOver : Bool) :
    Ship × List SaucerBullet × List Particle × Bool :=
  if ship.invuln ≤ 0 then
    match findLastIdxElem (fun sb => distLt sb.x sb.y ship.x ship.y ship.r) sbs with
    | some (j, _) =>
      let ship1 := { ship with lives := ship.lives - 1, x := w / 2, y := h / 2
                               vx := 0, vy := 0, invuln := 90 }
      (ship1, sbs.eraseIdx j,
        particles ++ explodeAt ship.x ship.y 16 pd,
        if ship1.lives ≤ 0 then true else gameOver)
    | none => (ship, sbs, particles, gameOver)
  else (ship, sbs, particles, gameOver)

/-- Source, game.js lines 806-819: the ship against asteroids, same
invulnerability gate; the asteroid is not removed, and the break after the
first hit means the effect fires at most once. -/
def shipVsAsteroids (w h : ℚ) (pd : ℕ → PDraw) (ship : Ship)
    (asteroids : List Asteroid) (particles : List Particle) (gameOver : Bool) :
    Ship × List Particle × Bool :=
  if ship.invuln ≤ 0 then
    if asteroids.any (fun a =>
        decide (distLt ship.x ship.y a.x a.y (ship.r + a.r))) then
      let ship1 := { ship with lives := ship.lives - 1, x := w / 2, y := h / 2
                               vx := 0, vy := 0, invuln := 90 }
      (ship1, particles ++ explodeAt ship.x ship.y 20 pd,
        if ship1.lives ≤ 0 then true else gameOver)
    else (ship, particles, gameOver)
  else (ship, particles, gameOver)

/-- Source, game.js lines 711-716 (maybeSpawnSaucer): past the deadline,
push one saucer and draw the next deadline now2 + delay with the delay
drawn from [SAUCER_SPAWN_MIN, SAUCER_SPAWN_MAX) = [15000, 45000). -/
def maybeSpawnSaucer (w now2 : ℚ) (d : SaucerDraw) (delay : ℚ)
    (saucers : List Saucer) (deadline : ℚ) : List Saucer × ℚ :=
  if deadline ≤ now2 then (saucers ++ [mkSaucer w d], now2 + delay)
  else (saucers, deadline)

/-- All random and trigonometric draws one tick can consume. -/
structure TickOracle where
  shipCos : ℚ
  shipSin : ℚ
  saucerFd : ℕ → SaucerFire
  bo : BulletOracle
  shipPd : ℕ → PDraw
  spawn : SaucerDraw
  delay : ℚ

def TickOracle.Valid (h : ℚ) (o : TickOracle) : Prop :=
  o.shipCos * o.shipCos + o.shipSin * o.shipSin = 1 ∧
  (∀ i, (o.saucerFd i).Valid) ∧
  (∀ i k, (o.bo.astPd i k).Valid) ∧ (∀ i k, (o.bo.scPd i k).Valid) ∧
  (∀ i, (o.bo.child1 i).Valid) ∧ (∀ i, (o.bo.child2 i).Valid) ∧
  (∀ k, (o.shipPd k).Valid) ∧ o.spawn.Valid h ∧
  15000 ≤ o.delay ∧ o.delay < 45000

/-- Source, game.js lines 744-846: one pass of the started loop body up to
but not including the game-over overlay: entity updates, bullet and
saucer-bullet pruning, the three collision phases, dead-saucer pruning,
the spawn check, and the particle update/prune pass.  now is the frame
timestamp, now2 the performance.now() read inside maybeSpawnSaucer. -/
def tickSim (w h now now2 : ℚ) (orc : TickOracle) (g : GameState) : GameState :=
  let dt := now - g.lastTime
  let ship1 := Ship.update w h orc.shipCos orc.shipSin g.ship
  let bullets1 := (g.bullets.map (Bullet.update w h)).filter
    (fun b => decide b.alive)
  let asteroids1 := g.asteroids.map (Asteroid.update w h)
  let sr := runSaucers w h dt orc.saucerFd g.saucers 0
  let saucerBullets1 := ((g.saucerBullets ++ sr.2).map
    (SaucerBullet.update w h)).filter (fun sb => decide sb.alive)
  let pb := procBullets w h orc.bo bullets1 0
    ⟨asteroids1, sr.1, g.particles, g.score⟩
  let p3 := shipVsSaucerBullets w h orc.shipPd ship1 saucerBullets1
    pb.2.1.particles g.gameOver
  let p4 := shipVsAsteroids w h orc.shipPd p3.1 pb.2.1.asteroids p3.2.2.1 p3.2.2.2
  let saucers2 := pb.2.1.saucers.filter (fun sc => sc.alive)
  let sp := maybeSpawnSaucer w now2 orc.spawn orc.delay saucers2 g.saucerNextSpawn
  let particles4 := (p4.2.1.map Particle.update).filter
    (fun p => decide (0 < p.life))
  { ship := p4.1, bullets := pb.1, asteroids := pb.2.1.asteroids
    particles := particles4, saucers := sp.1, saucerBullets := p3.2.1
    score := pb.2.1.score, started := g.started, gameOver := p4.2.2
    lastTime := now, saucerNextSpawn := sp.2 }

/-- Source, game.js lines 721-865 (function loop).  Before the game is
started only lastTime advances and the splash overlay is drawn (lines
722-742).  Otherwise the simulation pass above runs, and when gameOver
holds afterwards the overlay is drawn and the thrust flag is forced off
(lines 849-862); the stopThrust call is an audio side effect. -/
def tick (w h now now2 : ℚ) (orc : TickOracle) (g : GameState) : GameState :=
  if g.started = false then { g with lastTime := now }
  else
    let t := tickSim w h now now2 orc g
    if t.gameOver then { t with ship := { t.ship with thrusting := false } }
    else t

/-! ## Input events, the state machine, reachability -/
/-- Draws consumed by the touchstart reset branches: the fresh-ship
heading stand-in a0, five asteroid seeds, and the saucer-deadline delay
draw. -/
structure ResetDraws where
  a0 : ℚ
  seeds : ℕ → AstSeed
  delay : ℚ

def ResetDraws.Valid (w h : ℚ) (d : ResetDraws) : Prop :=
  (∀ i, i < 5 → (d.seeds i).Valid w h) ∧ 15000 ≤ d.delay ∧ d.delay < 45000

/-- Source, game.js lines 872-902 (canvas touchstart handler).  The
not-yet-started branch and the game-over branch are written out separately
below exactly as the source writes them twice; audioCtx.resume is an audio
side effect. -/
def applyTouch (w h now : ℚ) (d : ResetDraws) (g : GameState) : GameState :=
  if g.started = false then
    { g with started := true, gameOver := false, score := 0
             ship := Ship.init w h d.a0, bullets := []
             asteroids := resetAsteroids d.seeds, saucers := []
             saucerBullets := [], particles := []
             saucerNextSpawn := now + d.delay }
  else if g.gameOver then
    { g with gameOver := false, started := true, score := 0
             ship := Ship.init w h d.a0, bullets := []
             asteroids := resetAsteroids d.seeds, saucers := []
             saucerBullets := [], particles := []
             saucerNextSpawn := now + d.delay }
  else g

/-- Source, game.js lines 698-704 (function shoot): no bullet before the
game starts or after game over; otherwise a bullet spawns at the nose of
the ship with the ship heading.  cc, ss stand for cos, sin of ship.a. -/
def applyShoot (w h cc ss : ℚ) (g : GameState) : GameState :=
  if g.started = false ∨ g.gameOver = true then g
  else
    { g with bullets := g.bullets ++
        [mkBullet w h (g.ship.x + cc * g.ship.r) (g.ship.y + ss * g.ship.r) cc ss] }

/-- Source, game.js lines 675-676 and 667, 672: the thrust button and the
space key set or clear ship.thrusting. -/
def setThrusting (b : Bool) (g : GameState) : GameState :=
  { g with ship := { g.ship with thrusting := b } }

/-- Source, game.js lines 665-666, 671 and 688-692: the rotation inputs
set ship.rot to -0.08, 0.08 or back to 0. -/
def setRot (q : ℚ) (g : GameState) : GameState :=
  { g with ship := { g.ship with rot := q } }

/-- The events the environment can deliver between frames. -/
inductive Ev where
  | tick (now now2 : ℚ) (orc : TickOracle)
  | touch (now : ℚ) (d : ResetDraws)
  | shoot (cc ss : ℚ)
  | thrustSet (b : Bool)
  | rotSet (q : ℚ)

def applyEv (w h : ℚ) : Ev → GameState → GameState
  | .tick now now2 orc, g => tick w h now now2 orc g
  | .touch now d, g => applyTouch w h now d g
  | .shoot cc ss, g => applyShoot w h cc ss g
  | .thrustSet b, g => setThrusting b g
  | .rotSet q, g => setRot q g

/-- Validity of the draws an event carries, matching the distributions the
source draws from. -/
def Ev.Valid (w h : ℚ) : Ev → Prop
  | .tick now now2 orc => 0 ≤ now ∧ now ≤ now2 ∧ orc.Valid h
  | .touch now d => 0 ≤ now ∧ d.Valid w h
  | .shoot cc ss => cc * cc + ss * ss = 1
  | .thrustSet _ => True
  | .rotSet q => q = -0.08 ∨ q = 0 ∨ q = 0.08

/-- Draws of the module initialisation, game.js lines 636-652: the fresh
ship, the first asteroid field, the two performance.now() reads and the
first saucer-deadline delay draw. -/
structure InitDraws where
  a0 : ℚ
  seeds : ℕ → AstSeed
  t0 : ℚ
  t1 : ℚ
  delay : ℚ

/-- Source, game.js lines 636-652: the state after module initialisation,
before any input: not started, not game over, empty transient collections,
five seeded asteroids. -/
def initState (w h : ℚ) (d : InitDraws) : GameState :=
  { ship := Ship.init w h d.a0, bullets := [], asteroids := resetAsteroids d.seeds
    particles := [], saucers := [], saucerBullets := [], score := 0
    started := false, gameOver := false, lastTime := d.t0
    saucerNextSpawn := d.t1 + d.delay }

/-- One valid event takes g to g2. -/
def step (w h : ℚ) (g g2 : GameState) : Prop :=
  ∃ e : Ev, e.Valid w h ∧ applyEv w h e g = g2

/-- States reachable from module initialisation through valid events. -/
def Reachable (w h : ℚ) (d : InitDraws) (g : GameState) : Prop :=
  Relation.ReflTransGen (step w h) (initState w h d) g

/-- The hypotheses shared by every tick of the two counterexample traces:
the game is started, there are no bullets and no saucers, the ship sits
still inside the screen, the saucer deadline is in the future, and every
asteroid stays inside the screen for one more step. -/
def QuietTick (w h now2 : ℚ) (g : GameState) : Prop :=
  g.started = true ∧ g.bullets = [] ∧ g.saucers = [] ∧ g.saucerBullets = [] ∧
  g.ship.thrusting = false ∧ g.ship.rot = 0 ∧ g.ship.vx = 0 ∧ g.ship.vy = 0 ∧
  0 ≤ g.ship.x ∧ g.ship.x < w ∧ 0 ≤ g.ship.y ∧ g.ship.y < h ∧
  now2 < g.saucerNextSpawn ∧
  (∀ a ∈ g.asteroids, 0 ≤ a.x + a.dx ∧ a.x + a.dx < w ∧
    0 ≤ a.y + a.dy ∧ a.y + a.dy < h)

/-- One step of a coasting asteroid field. -/
def moveAst (a : Asteroid) : Asteroid := { a with x := a.x + a.dx, y := a.y + a.dy }

/-- One step of the particle pass: everything updates, then dead particles
are pruned. -/
def particleStep (ps : List Particle) : List Particle :=
  (ps.map Particle.update).filter (fun p => decide (0 < p.life))

/-! ## Concrete traces: shared plumbing -/
/-- n ticks with frame timestamps 16, 32, ..., 16n milliseconds. -/
def ticksFrom (w h : ℚ) (orc : TickOracle) : ℕ → GameState → GameState
  | 0, g => g
  | n + 1, g => tick w h (16 * ((n : ℚ) + 1)) (16 * ((n : ℚ) + 1)) orc
      (ticksFrom w h orc n g)

/-- The fixed valid tick oracle used by the concrete traces: the ship
never thrusts and no saucer exists in them, so only validity matters. -/
def pdQ : PDraw := ⟨0, 0, 18, 1⟩

def avQ : AstVel := ⟨1, 0, 0⟩

def orcQ : TickOracle :=
  { shipCos := 1, shipSin := 0, saucerFd := fun _ => ⟨600, 1, 0⟩
    bo := ⟨fun _ _ => pdQ, fun _ _ => pdQ, fun _ => avQ, fun _ => avQ⟩
    shipPd := fun _ => pdQ, spawn := ⟨-1, 40, 3/2, 600⟩, delay := 15000 }

/-! ## The C1 trace: a run reaching negative lives

Screen 2000 x 1000.  Five asteroids of radius 30 all drifting right at
speed 1; four of them cross the screen centre at ticks 1, 91, 181 and 271,
exactly when the invulnerability window of the previous hit has expired,
so the ship is hit at those four ticks; the third hit brings lives to 0
and raises gameOver, but the loop keeps simulating, and the fourth hit
drives lives to -1. -/
def c1lives (k : ℕ) : ℤ :=
  if k = 0 then 3 else if k ≤ 90 then 2 else if k ≤ 180 then 1
  else if k ≤ 270 then 0 else -1

def c1invuln (k : ℕ) : ℤ :=
  if k = 0 then 0 else if k ≤ 90 then 91 - k else if k ≤ 180 then 181 - k
  else if k ≤ 270 then 271 - k else 361 - k

def c1ship (k : ℕ) : Ship :=
  { x := 1000, y := 500, a := 0, r := 15, rot := 0, vx := 0, vy := 0
    thrusting := false, lives := c1lives k, invuln := c1invuln k }

def c1asts (k : ℕ) : List Asteroid :=
  [ ⟨1000 + (k : ℚ), 500, 30, 1, 0, 0⟩, ⟨909 + (k : ℚ), 500, 30, 1, 0, 0⟩,
    ⟨819 + (k : ℚ), 500, 30, 1, 0, 0⟩, ⟨729 + (k : ℚ), 500, 30, 1, 0, 0⟩,
    ⟨1000 + (k : ℚ), 100, 30, 1, 0, 0⟩ ]

/-- The simulation-relevant components of the C1 trace state after k
ticks; the cosmetic particle list is left unconstrained. -/
def C1Shape (k : ℕ) (g : GameState) : Prop :=
  g.ship = c1ship k ∧ g.asteroids = c1asts k ∧ g.bullets = [] ∧
  g.saucers = [] ∧ g.saucerBullets = [] ∧ g.score = 0 ∧ g.started = true ∧
  (g.gameOver = true ↔ 181 ≤ k) ∧ g.saucerNextSpawn = 30000

/-- The five asteroid seeds of the C1 trace. -/
def c1seed : ℕ → AstSeed
  | 0 => ⟨1000, 500, 30, avQ⟩
  | 1 => ⟨909, 500, 30, avQ⟩
  | 2 => ⟨819, 500, 30, avQ⟩
  | 3 => ⟨729, 500, 30, avQ⟩
  | _ => ⟨1000, 100, 30, avQ⟩

def c1Reset : ResetDraws := ⟨0, c1seed, 30000⟩

def c1Init : InitDraws := ⟨0, c1seed, 0, 0, 15000⟩

/-- The C1 trace start: module init, then the starting tap at time 0. -/
def c1g0 : GameState := applyTouch 2000 1000 0 c1Reset (initState 2000 1000 c1Init)

/-- The C1 trace end state: 271 ticks after the starting tap. -/
def c1final : GameState := ticksFrom 2000 1000 orcQ 271 c1g0

/-- The invariant behind the "lives never negative" reading that the code
actually maintains: while the game-over flag is down, lives are at least
one. -/
def LivesInv (g : GameState) : Prop := g.gameOver = false → 1 ≤ g.ship.lives

/-! ## Claim C2 -/
/-- A game-over state with one drifting asteroid, used to show that ticks
taken in GameOver do not freeze the simulation. -/
def c2state : GameState :=
  { ship := ⟨1000, 500, 0, 15, 0, 0, 0, false, 0, 5⟩, bullets := []
    asteroids := [⟨500, 500, 30, 1, 0, 0⟩], particles := [], saucers := []
    saucerBullets := [], score := 0, started := true, gameOver := true
    lastTime := 0, saucerNextSpawn := 30000 }

/-- A state whose invulnerability counter is exactly 1 at tick entry, with
an asteroid about to cross the ship: the counter is decremented to 0
before the collision phases run, so this tick does cost a life even though
the counter was strictly positive when the tick began. -/
def c7state : GameState :=
  { ship := ⟨1000, 500, 0, 15, 0, 0, 0, false, 3, 1⟩, bullets := []
    asteroids := [⟨999, 500, 30, 1, 0, 0⟩], particles := [], saucers := []
    saucerBullets := [], score := 0, started := true, gameOver := false
    lastTime := 0, saucerNextSpawn := 30000 }

/-- A quiet state with a large invulnerability counter for the C7
witness. -/
def c7wstate : GameState :=
  { ship := ⟨1000, 500, 0, 15, 0, 0, 0, false, 3, 5⟩, bullets := []
    asteroids := [], particles := [], saucers := []
    saucerBullets := [], score := 0, started := true, gameOver := false
    lastTime := 0, saucerNextSpawn := 30000 }

/-- A saucer as the constructor builds it entering from the left on a
2000 x 1000 screen, from a valid draw. -/
def c4saucer : Saucer := mkSaucer 2000 ⟨-1, 100, 3/2, 600⟩

/-! ## Claim C3 -/
/-- A playing state holding the last asteroid (radius 20, the terminal
size) with a bullet six pixels short of its centre. -/
def c3state : GameState :=
  { ship := ⟨1000, 500, 0, 15, 0, 0, 0, false, 3, 0⟩
    bullets := [⟨495, 300, 6, 0, 0, 3000⟩]
    asteroids := [⟨500, 300, 20, 1, 0, 0⟩], particles := [], saucers := []
    saucerBullets := [], score := 0, started := true, gameOver := false
    lastTime := 0, saucerNextSpawn := 30000 }

/-- A concrete game-over state for the C8 witness. -/
def c8over : GameState :=
  { ship := ⟨1000, 500, 0, 15, 0, 0, 0, false, 0, 40⟩, bullets := []
    asteroids := [⟨500, 500, 30, 1, 0, 0⟩]
    particles := [⟨1000, 500, 0, 0, 7, 1⟩], saucers := []
    saucerBullets := [], score := 4200, started := true, gameOver := true
    lastTime := 96, saucerNextSpawn := 30000 }

/-- The kill counters of the bullet-collision phase of one tick. -/
def tickKills (w h now : ℚ) (orc : TickOracle) (g : GameState) : ℕ × ℕ :=
  if g.started = false then (0, 0)
  else
    ((procBullets w h orc.bo
        ((g.bullets.map (Bullet.update w h)).filter (fun b => decide b.alive)) 0
        ⟨g.asteroids.map (Asteroid.update w h),
          (runSaucers w h (now - g.lastTime) orc.saucerFd g.saucers 0).1,
          g.particles, g.score⟩).2.2.1,
      (procBullets w h orc.bo
        ((g.bullets.map (Bullet.update w h)).filter (fun b => decide b.alive)) 0
        ⟨g.asteroids.map (Asteroid.update w h),
          (runSaucers w h (now - g.lastTime) orc.saucerFd g.saucers 0).1,
          g.particles, g.score⟩).2.2.2)

/-- A game-over state with a positive score for the C9 witness. -/
def c9wstate : GameState :=
  { ship := ⟨1000, 500, 0, 15, 0, 0, 0, false, 0, 40⟩, bullets := []
    asteroids := [], particles := [], saucers := [], saucerBullets := []
    score := 500, started := true, gameOver := true, lastTime := 0
    saucerNextSpawn := 30000 }

/-- The five asteroid seeds of the C9 trace: one target ahead of the
fired bullet, three death asteroids timed to cross the ship centre at
ticks 1, 91 and 181, and one bystander. -/
def c9seed : ℕ → AstSeed
  | 0 => ⟨1040, 500, 30, avQ⟩
  | 1 => ⟨959, 500, 26, avQ⟩
  | 2 => ⟨869, 500, 26, avQ⟩
  | 3 => ⟨779, 500, 26, avQ⟩
  | _ => ⟨1000, 100, 30, avQ⟩

def c9Reset : ResetDraws := ⟨0, c9seed, 30000⟩

def c9Init : InitDraws := ⟨0, c9seed, 0, 0, 15000⟩

/-- The C9 trace start: module init, the starting tap at time 0, then one
shot fired straight right. -/
def c9g1 : GameState :=
  applyShoot 2000 1000 1 0 (applyTouch 2000 1000 0 c9Reset
    (initState 2000 1000 c9Init))

/-- The C9 trace state after the starting tap and the shot, written out. -/
def c9G1 : GameState :=
  { ship := ⟨1000, 500, 0, 15, 0, 0, 0, false, 3, 0⟩
    bullets := [⟨1015, 500, 6, 0, 0, 3000⟩]
    asteroids := [⟨1040, 500, 30, 1, 0, 0⟩, ⟨959, 500, 26, 1, 0, 0⟩,
      ⟨869, 500, 26, 1, 0, 0⟩, ⟨779, 500, 26, 1, 0, 0⟩,
      ⟨1000, 100, 30, 1, 0, 0⟩]
    particles := [], saucers := [], saucerBullets := [], score := 0
    started := true, gameOver := false, lastTime := 0
    saucerNextSpawn := 30000 }

/-! The C9 shape functions, valid for 1 ≤ k ≤ 181: after the first tick
the score is pinned at 100, the bullet is gone, six asteroids coast right,
and the ship is hit again at ticks 91 and 181 (asteroids three and four
reaching x = 960 exactly as invulnerability expires); the third death
raises gameOver with the score still at 100. -/
def c9lives (k : ℕ) : ℤ :=
  if k ≤ 90 then 2 else if k ≤ 180 then 1 else 0

def c9invuln (k : ℕ) : ℤ :=
  if k ≤ 90 then 91 - k else if k ≤ 180 then 181 - k else 271 - k

def c9ship (k : ℕ) : Ship :=
  { x := 1000, y := 500, a := 0, r := 15, rot := 0, vx := 0, vy := 0
    thrusting := false, lives := c9lives k, invuln := c9invuln k }

def c9asts (k : ℕ) : List Asteroid :=
  [ ⟨959 + (k : ℚ), 500, 26, 1, 0, 0⟩, ⟨869 + (k : ℚ), 500, 26, 1, 0, 0⟩,
    ⟨779 + (k : ℚ), 500, 26, 1, 0, 0⟩, ⟨1000 + (k : ℚ), 100, 30, 1, 0, 0⟩,
    ⟨1044 + (k : ℚ), 504, 15, 1, 0, 0⟩, ⟨1036 + (k : ℚ), 496, 15, 1, 0, 0⟩ ]

/-- The simulation-relevant components of the C9 trace state after k ≥ 1
ticks; the cosmetic particle list is left unconstrained. -/
def C9Shape (k : ℕ) (g : GameState) : Prop :=
  g.ship = c9ship k ∧ g.asteroids = c9asts k ∧ g.bullets = [] ∧
  g.saucers = [] ∧ g.saucerBullets = [] ∧ g.score = 100 ∧ g.started = true ∧
  (g.gameOver = true ↔ 181 ≤ k) ∧ g.saucerNextSpawn = 30000

/-- The C9 trace end state: 181 ticks after the tap and the shot. -/
def c9final : GameState := ticksFrom 2000 1000 orcQ 181 c9g1

theorem ratTrunc_eq_floor (q : ℚ) (hq : 0 ≤ q) : ratTrunc q = ⌊q⌋ := by
  rw [Rat.floor_def, ratTrunc]
  exact Int.tdiv_eq_ediv (Rat.num_nonneg.mpr hq) (Int.ofNat_nonneg q.den)

theorem jsRem_eq_fract (a b : ℚ) (hb : 0 < b) (ha : 0 ≤ a) :
    jsRem a b = b * Int.fract (a / b) := by
  have hq : (0 : ℚ) ≤ a / b := div_nonneg ha hb.le
  rw [jsRem, ratTrunc_eq_floor _ hq, Int.fract]
  field_simp

theorem jsRem_nonneg (a b : ℚ) (hb : 0 < b) (ha : 0 ≤ a) : 0 ≤ jsRem a b := by
  rw [jsRem_eq_fract a b hb ha]
  exact mul_nonneg hb.le (Int.fract_nonneg _)

theorem jsRem_lt (a b : ℚ) (hb : 0 < b) (ha : 0 ≤ a) : jsRem a b < b := by
  rw [jsRem_eq_fract a b hb ha]
  calc b * Int.fract (a / b) < b * 1 := by
        exact (mul_lt_mul_left hb).mpr (Int.fract_lt_one _)
    _ = b := mul_one b

theorem wrapX_bounds (w x : ℚ) (hw : 0 < w) (hx : -w ≤ x) :
    0 ≤ wrapX w x ∧ wrapX w x < w := by
  have ha : 0 ≤ x + w := by linarith
  exact ⟨jsRem_nonneg _ _ hw ha, jsRem_lt _ _ hw ha⟩

/-- On an in-range coordinate the wrap is the identity. -/
theorem wrapX_id (w x : ℚ) (hw : 0 < w) (h0 : 0 ≤ x) (h1 : x < w) :
    wrapX w x = x := by
  have ha : 0 ≤ x + w := by linarith
  have hq : (x + w) / w = x / w + 1 := by field_simp
  have hfl : ⌊(x + w) / w⌋ = 1 := by
    rw [hq, Int.floor_add_one, Int.floor_eq_zero_iff.mpr]
    · simp
    · constructor
      · exact div_nonneg h0 hw.le
      · rw [div_lt_one hw]; exact h1
  rw [wrapX, jsRem, ratTrunc_eq_floor _ (div_nonneg ha hw.le), hfl]
  push_cast
  ring

theorem wrapY_bounds (h y : ℚ) (hh : 0 < h) (hy : -h ≤ y) :
    0 ≤ wrapY h y ∧ wrapY h y < h := wrapX_bounds h y hh hy

theorem wrapY_id (h y : ℚ) (hh : 0 < h) (h0 : 0 ≤ y) (h1 : y < h) :
    wrapY h y = y := wrapX_id h y hh h0 h1

theorem ratSqrt_sq (s : ℚ) (hs : 0 ≤ s) : ratSqrt (s * s) = s := by
  have hnum : (s * s).num = s.num * s.num := Rat.mul_self_num s
  have hden : (s * s).den = s.den * s.den := Rat.mul_self_den s
  have hn : (0 : ℤ) ≤ s.num := Rat.num_nonneg.mpr hs
  have h1 : (s * s).num.toNat = s.num.toNat * s.num.toNat := by
    obtain ⟨n, hn2⟩ := Int.eq_ofNat_of_zero_le hn
    rw [hnum, hn2, ← Int.natCast_mul, Int.toNat_natCast]
    simp
  rw [ratSqrt, h1, hden, Nat.sqrt_eq, Nat.sqrt_eq]
  rw [show ((s.num.toNat : ℚ)) = (s.num : ℚ) by
    exact_mod_cast congrArg (fun z : ℤ => (z : ℚ)) (Int.toNat_of_nonneg hn)]
  exact Rat.num_div_den s

theorem hypot_pyth (dx dy s : ℚ) (hs : 0 ≤ s) (h : dx * dx + dy * dy = s * s) :
    hypot dx dy = s := by rw [hypot, h, ratSqrt_sq s hs]

/-- Justification that hypot agrees with the real square root on every
input at which the development evaluates it. -/
theorem hypot_eq_real_sqrt (dx dy s : ℚ) (hs : 0 ≤ s)
    (h : dx * dx + dy * dy = s * s) :
    (hypot dx dy : ℝ) = Real.sqrt ((dx : ℝ) ^ 2 + (dy : ℝ) ^ 2) := by
  rw [hypot_pyth dx dy s hs h]
  have : ((dx : ℝ)) ^ 2 + (dy : ℝ) ^ 2 = ((s : ℝ)) ^ 2 := by
    have := congrArg (fun q : ℚ => (q : ℝ)) h
    push_cast at this
    nlinarith [this]
  rw [this, Real.sqrt_sq (by exact_mod_cast hs)]

theorem distLt_iff_real_dist (px py qx qy r : ℚ) :
    distLt px py qx qy r ↔
      Real.sqrt (((px : ℝ) - qx) ^ 2 + ((py : ℝ) - qy) ^ 2) < (r : ℝ) := by
  have key : ((px - qx) * (px - qx) + (py - qy) * (py - qy) : ℚ) < r * r ↔
      ((px : ℝ) - qx) ^ 2 + ((py : ℝ) - qy) ^ 2 < (r : ℝ) ^ 2 := by
    rw [show ((px : ℝ) - qx) ^ 2 + ((py : ℝ) - qy) ^ 2 =
          (((px - qx) * (px - qx) + (py - qy) * (py - qy) : ℚ) : ℝ) by
        push_cast; ring,
      show ((r : ℝ)) ^ 2 = ((r * r : ℚ) : ℝ) by push_cast; ring]
    exact Rat.cast_lt.symm
  constructor
  · rintro ⟨hr, hlt⟩
    rw [Real.sqrt_lt' (by exact_mod_cast hr)]
    exact key.mp hlt
  · intro hlt
    have hr : (0 : ℝ) < r := lt_of_le_of_lt (Real.sqrt_nonneg _) hlt
    refine ⟨by exact_mod_cast hr, ?_⟩
    rw [Real.sqrt_lt' hr] at hlt
    exact key.mpr hlt

/-! ## Phase characterisation lemmas -/
theorem thrustOff_eta (s : Ship) (h : s.thrusting = false) :
    { s with thrusting := false } = s := by
  cases s
  simp_all

theorem overlay_id (t : GameState) (ht : t.ship.thrusting = false) :
    (if t.gameOver = true then { t with ship := { t.ship with thrusting := false } }
     else t) = t := by
  by_cases hgo : t.gameOver = true
  · rw [if_pos hgo, thrustOff_eta t.ship ht]
  · rw [if_neg hgo]

/-- A ship that is not thrusting, not rotating and not moving is left in
place by Ship.update; only the invulnerability counter steps. -/
theorem ship_update_coast (w h cA sA : ℚ) (s : Ship)
    (hthr : s.thrusting = false) (hrot : s.rot = 0)
    (hvx : s.vx = 0) (hvy : s.vy = 0)
    (hw : 0 < w) (hh : 0 < h)
    (hx0 : 0 ≤ s.x) (hx1 : s.x < w) (hy0 : 0 ≤ s.y) (hy1 : s.y < h) :
    Ship.update w h cA sA s =
      { s with invuln := if 0 < s.invuln then s.invuln - 1 else s.invuln } := by
  cases s with
  | mk x y a r rot vx vy thrusting lives invuln =>
    simp only at hthr hrot hvx hvy hx0 hx1 hy0 hy1
    subst hthr hrot hvx hvy
    simp only [Ship.update, Bool.false_eq_true, if_false, zero_mul, add_zero, mul_zero]
    rw [wrapX_id w x hw hx0 hx1, wrapY_id h y hh hy0 hy1]

theorem asteroid_update_inrange (w h : ℚ) (a : Asteroid)
    (hw : 0 < w) (hh : 0 < h)
    (hx0 : 0 ≤ a.x + a.dx) (hx1 : a.x + a.dx < w)
    (hy0 : 0 ≤ a.y + a.dy) (hy1 : a.y + a.dy < h) :
    Asteroid.update w h a = { a with x := a.x + a.dx, y := a.y + a.dy } := by
  rw [Asteroid.update, wrapX_id w _ hw hx0 hx1, wrapY_id h _ hh hy0 hy1]

theorem shipVsSaucerBullets_skip (w h : ℚ) (pd : ℕ → PDraw) (ship : Ship)
    (sbs : List SaucerBullet) (particles : List Particle) (gameOver : Bool)
    (hinv : 0 < ship.invuln) :
    shipVsSaucerBullets w h pd ship sbs particles gameOver =
      (ship, sbs, particles, gameOver) := by
  rw [shipVsSaucerBullets, if_neg (by omega)]

theorem shipVsSaucerBullets_none (w h : ℚ) (pd : ℕ → PDraw) (ship : Ship)
    (particles : List Particle) (gameOver : Bool) :
    shipVsSaucerBullets w h pd ship [] particles gameOver =
      (ship, [], particles, gameOver) := by
  rw [shipVsSaucerBullets]
  split
  · rfl
  · rfl

theorem shipVsAsteroids_skip (w h : ℚ) (pd : ℕ → PDraw) (ship : Ship)
    (asteroids : List Asteroid) (particles : List Particle) (gameOver : Bool)
    (hinv : 0 < ship.invuln) :
    shipVsAsteroids w h pd ship asteroids particles gameOver =
      (ship, particles, gameOver) := by
  rw [shipVsAsteroids, if_neg (by omega)]

theorem shipVsAsteroids_miss (w h : ℚ) (pd : ℕ → PDraw) (ship : Ship)
    (asteroids : List Asteroid) (particles : List Particle) (gameOver : Bool)
    (hmiss : asteroids.any (fun a =>
      decide (distLt ship.x ship.y a.x a.y (ship.r + a.r))) = false) :
    shipVsAsteroids w h pd ship asteroids particles gameOver =
      (ship, particles, gameOver) := by
  rw [shipVsAsteroids]
  split
  · rw [if_neg (by rw [hmiss]; exact Bool.false_ne_true)]
  · rfl

theorem shipVsAsteroids_hit (w h : ℚ) (pd : ℕ → PDraw) (ship : Ship)
    (asteroids : List Asteroid) (particles : List Particle) (gameOver : Bool)
    (hinv : ship.invuln ≤ 0)
    (hhit : asteroids.any (fun a =>
      decide (distLt ship.x ship.y a.x a.y (ship.r + a.r))) = true) :
    shipVsAsteroids w h pd ship asteroids particles gameOver =
      ({ ship with lives := ship.lives - 1, x := w / 2, y := h / 2
                   vx := 0, vy := 0, invuln := 90 },
       particles ++ explodeAt ship.x ship.y 20 pd,
       if ship.lives - 1 ≤ 0 then true else gameOver) := by
  rw [shipVsAsteroids, if_pos hinv, if_pos hhit]

theorem maybeSpawnSaucer_none (w now2 : ℚ) (d : SaucerDraw) (delay : ℚ)
    (saucers : List Saucer) (deadline : ℚ) (hlt : now2 < deadline) :
    maybeSpawnSaucer w now2 d delay saucers deadline = (saucers, deadline) := by
  rw [maybeSpawnSaucer, if_neg (by linarith)]

/-- A tick on a quiet state with the invulnerability counter at 2 or more:
no collision phase can run (the counter is still positive after its
decrement), so only the counter, the asteroid positions, the particles and
lastTime change. -/
theorem tick_quiet (w h now now2 : ℚ) (orc : TickOracle) (g : GameState)
    (hw : 0 < w) (hh : 0 < h) (hq : QuietTick w h now2 g)
    (hinv : 2 ≤ g.ship.invuln) :
    tick w h now now2 orc g =
      { g with ship := { g.ship with invuln := g.ship.invuln - 1 }
               asteroids := g.asteroids.map moveAst
               particles := particleStep g.particles
               lastTime := now } := by
  obtain ⟨hst, hb, hsc, hsb, hthr, hrot, hvx, hvy, hx0, hx1, hy0, hy1, hnow, hast⟩ := hq
  have hship : Ship.update w h orc.shipCos orc.shipSin g.ship =
      { g.ship with invuln := g.ship.invuln - 1 } := by
    rw [ship_update_coast w h _ _ _ hthr hrot hvx hvy hw hh hx0 hx1 hy0 hy1,
      if_pos (by omega)]
  have hasts : g.asteroids.map (Asteroid.update w h) = g.asteroids.map moveAst := by
    refine List.map_congr_left ?_
    intro a ha
    obtain ⟨h1, h2, h3, h4⟩ := hast a ha
    exact asteroid_update_inrange w h a hw hh h1 h2 h3 h4
  rw [tick, if_neg (by rw [hst]; simp)]
  rw [show tickSim w h now now2 orc g =
    { g with ship := { g.ship with invuln := g.ship.invuln - 1 }
             asteroids := g.asteroids.map moveAst
             particles := particleStep g.particles
             lastTime := now } from ?_]
  · exact overlay_id _ (by simpa using hthr)
  · rw [tickSim]
    simp only [hb, hsc, hsb, hship, hasts, List.map_nil, List.filter_nil,
      List.nil_append, List.append_nil]
    rw [show runSaucers w h (now - g.lastTime) orc.saucerFd [] 0 = ([], []) from rfl]
    simp only [List.append_nil, List.map_nil, List.filter_nil]
    rw [show procBullets w h orc.bo [] 0
        ⟨g.asteroids.map moveAst, [], g.particles, g.score⟩ =
        ([], ⟨g.asteroids.map moveAst, [], g.particles, g.score⟩, 0, 0) from rfl]
    rw [shipVsSaucerBullets_none, shipVsAsteroids_skip _ _ _ _ _ _ _ (by simp; omega),
      maybeSpawnSaucer_none _ _ _ _ _ _ hnow]
    rfl

/-- A tick on a quiet state whose invulnerability counter is 0 or 1 (so it
is 0 after the decrement) and where some asteroid, after moving, overlaps
the ship: the ship loses one life, recentres, regains 90 frames of
invulnerability, and gameOver is raised exactly when the decremented lives
reach zero. -/
theorem tick_shipHit (w h now now2 : ℚ) (orc : TickOracle) (g : GameState)
    (hw : 0 < w) (hh : 0 < h) (hq : QuietTick w h now2 g)
    (hinv : g.ship.invuln = 0 ∨ g.ship.invuln = 1)
    (hhit : (g.asteroids.map moveAst).any (fun a =>
      decide (distLt g.ship.x g.ship.y a.x a.y (g.ship.r + a.r))) = true) :
    tick w h now now2 orc g =
      { g with ship := { g.ship with lives := g.ship.lives - 1, x := w / 2
                                     y := h / 2, vx := 0, vy := 0, invuln := 90 }
               asteroids := g.asteroids.map moveAst
               particles := particleStep
                 (g.particles ++ explodeAt g.ship.x g.ship.y 20 orc.shipPd)
               gameOver := if g.ship.lives - 1 ≤ 0 then true else g.gameOver
               lastTime := now } := by
  obtain ⟨hst, hb, hsc, hsb, hthr, hrot, hvx, hvy, hx0, hx1, hy0, hy1, hnow, hast⟩ := hq
  have hship : Ship.update w h orc.shipCos orc.shipSin g.ship =
      { g.ship with invuln := 0 } := by
    rw [ship_update_coast w h _ _ _ hthr hrot hvx hvy hw hh hx0 hx1 hy0 hy1]
    rcases hinv with h0 | h1
    · rw [h0]; norm_num
    · rw [h1]; norm_num
  have hasts : g.asteroids.map (Asteroid.update w h) = g.asteroids.map moveAst := by
    refine List.map_congr_left ?_
    intro a ha
    obtain ⟨h1, h2, h3, h4⟩ := hast a ha
    exact asteroid_update_inrange w h a hw hh h1 h2 h3 h4
  rw [tick, if_neg (by rw [hst]; simp)]
  rw [show tickSim w h now now2 orc g =
      { g with ship := { g.ship with lives := g.ship.lives - 1, x := w / 2
                                     y := h / 2, vx := 0, vy := 0, invuln := 90 }
               asteroids := g.asteroids.map moveAst
               particles := particleStep
                 (g.particles ++ explodeAt g.ship.x g.ship.y 20 orc.shipPd)
               gameOver := if g.ship.lives - 1 ≤ 0 then true else g.gameOver
               lastTime := now } from ?_]
  · exact overlay_id _ (by simpa using hthr)
  · rw [tickSim]
    simp only [hb, hsc, hsb, hship, hasts, List.map_nil, List.filter_nil,
      List.nil_append, List.append_nil]
    rw [show runSaucers w h (now - g.lastTime) orc.saucerFd [] 0 = ([], []) from rfl]
    simp only [List.append_nil, List.map_nil, List.filter_nil]
    rw [show procBullets w h orc.bo [] 0
        ⟨g.asteroids.map moveAst, [], g.particles, g.score⟩ =
        ([], ⟨g.asteroids.map moveAst, [], g.particles, g.score⟩, 0, 0) from rfl]
    rw [shipVsSaucerBullets_none]
    rw [shipVsAsteroids_hit _ _ _ _ _ _ _ (by simp) (by simpa using hhit)]
    rw [maybeSpawnSaucer_none _ _ _ _ _ _ hnow]
    rfl

theorem reachable_ticksFrom (w h : ℚ) (d : InitDraws) (orc : TickOracle)
    (horc : orc.Valid h) (g : GameState) (hg : Reachable w h d g) (n : ℕ) :
    Reachable w h d (ticksFrom w h orc n g) := by
  induction n with
  | zero => exact hg
  | succ n ih =>
    refine Relation.ReflTransGen.tail ih ?_
    refine ⟨Ev.tick (16 * ((n : ℚ) + 1)) (16 * ((n : ℚ) + 1)) orc, ?_, rfl⟩
    refine ⟨?_, le_refl _, horc⟩
    positivity

theorem orcQ_valid : orcQ.Valid 1000 := by
  unfold TickOracle.Valid orcQ pdQ avQ
  refine ⟨?_, fun i => ?_, fun i k => ?_, fun i k => ?_, fun i => ?_,
    fun i => ?_, fun k => ?_, ?_, ?_, ?_⟩ <;>
    simp [SaucerFire.Valid, PDraw.Valid, AstVel.Valid, SaucerDraw.Valid] <;>
    norm_num

theorem c1asts_move (k : ℕ) : (c1asts k).map moveAst = c1asts (k + 1) := by
  simp only [c1asts, moveAst, List.map_cons, List.map_nil]
  push_cast
  norm_num
  refine ⟨?_, ?_, ?_, ?_, ?_⟩ <;> ring

theorem c1_quiet_pre (k : ℕ) (g : GameState) (hs : C1Shape k g) (hk : k ≤ 270) :
    QuietTick 2000 1000 (16 * ((k : ℚ) + 1)) g := by
  obtain ⟨hship, hast, hb, hsc, hsb, _, hst, _, hnext⟩ := hs
  have hkq : (k : ℚ) ≤ 270 := by exact_mod_cast hk
  refine ⟨hst, hb, hsc, hsb, ?_, ?_, ?_, ?_, ?_, ?_, ?_, ?_, ?_, ?_⟩
  · rw [hship]; rfl
  · rw [hship]; rfl
  · rw [hship]; rfl
  · rw [hship]; rfl
  · rw [hship]; norm_num [c1ship]
  · rw [hship]; norm_num [c1ship]
  · rw [hship]; norm_num [c1ship]
  · rw [hship]; norm_num [c1ship]
  · rw [hnext]; linarith
  · intro a ha
    rw [hast] at ha
    have hk0 : (0 : ℚ) ≤ (k : ℚ) := by positivity
    simp only [c1asts, List.mem_cons, List.not_mem_nil, or_false] at ha
    rcases ha with rfl | rfl | rfl | rfl | rfl <;>
      refine ⟨by norm_num; try linarith, by norm_num; try linarith,
        by norm_num, by norm_num⟩

theorem c1lives_quiet (k : ℕ) (h0 : k ≠ 0) (h90 : k ≠ 90) (h180 : k ≠ 180)
    (h270 : k ≠ 270) (hk : k < 271) : c1lives (k + 1) = c1lives k := by
  simp only [c1lives]; split_ifs <;> first | omega | contradiction

theorem c1invuln_quiet (k : ℕ) (h0 : k ≠ 0) (h90 : k ≠ 90) (h180 : k ≠ 180)
    (h270 : k ≠ 270) (hk : k < 271) : c1invuln (k + 1) = c1invuln k - 1 := by
  simp only [c1invuln]; split_ifs <;> first | omega | contradiction

theorem c1invuln_ge2 (k : ℕ) (h0 : k ≠ 0) (h90 : k ≠ 90) (h180 : k ≠ 180)
    (h270 : k ≠ 270) (hk : k < 271) : 2 ≤ c1invuln k := by
  simp only [c1invuln]; split_ifs <;> omega

theorem c1_step (k : ℕ) (hk : k < 271) (g : GameState) (hs : C1Shape k g) :
    C1Shape (k + 1)
      (tick 2000 1000 (16 * ((k : ℚ) + 1)) (16 * ((k : ℚ) + 1)) orcQ g) := by
  have hq := c1_quiet_pre k g hs (by omega)
  obtain ⟨hship, hast, hb, hsc, hsb, hscore, hst, hgo, hnext⟩ := hs
  by_cases hhitk : k = 0 ∨ k = 90 ∨ k = 180 ∨ k = 270
  · -- a hit tick
    have hinv : g.ship.invuln = 0 ∨ g.ship.invuln = 1 := by
      rw [hship]
      rcases hhitk with rfl | rfl | rfl | rfl <;> norm_num [c1ship, c1invuln]
    have hhit : (g.asteroids.map moveAst).any (fun a =>
        decide (distLt g.ship.x g.ship.y a.x a.y (g.ship.r + a.r))) = true := by
      rw [hast, c1asts_move, hship]
      refine List.any_eq_true.mpr ?_
      rcases hhitk with rfl | rfl | rfl | rfl
      · exact ⟨⟨1000 + ((0 : ℕ) : ℚ) + 1, 500, 30, 1, 0, 0⟩, by
          norm_num [c1asts], decide_eq_true (by norm_num [distLt, c1ship])⟩
      · exact ⟨⟨909 + ((90 : ℕ) : ℚ) + 1, 500, 30, 1, 0, 0⟩, by
          norm_num [c1asts], decide_eq_true (by norm_num [distLt, c1ship])⟩
      · exact ⟨⟨819 + ((180 : ℕ) : ℚ) + 1, 500, 30, 1, 0, 0⟩, by
          norm_num [c1asts], decide_eq_true (by norm_num [distLt, c1ship])⟩
      · exact ⟨⟨729 + ((270 : ℕ) : ℚ) + 1, 500, 30, 1, 0, 0⟩, by
          norm_num [c1asts], decide_eq_true (by norm_num [distLt, c1ship])⟩
    rw [tick_shipHit 2000 1000 _ _ orcQ g (by norm_num) (by norm_num) hq hinv hhit]
    refine ⟨?_, ?_, hb, hsc, hsb, hscore, hst, ?_, hnext⟩
    · rw [hship]
      rcases hhitk with rfl | rfl | rfl | rfl <;>
        simp [c1ship, c1lives, c1invuln] <;> norm_num
    · rw [hast, c1asts_move]
    · rw [hship]
      rcases hhitk with rfl | rfl | rfl | rfl <;>
        simp [c1ship, c1lives] <;> simp_all
  · -- a quiet tick
    push_neg at hhitk
    obtain ⟨h0, h90, h180, h270⟩ := hhitk
    rw [tick_quiet 2000 1000 _ _ orcQ g (by norm_num) (by norm_num) hq
      (by rw [hship]; exact c1invuln_ge2 k h0 h90 h180 h270 hk)]
    refine ⟨?_, ?_, hb, hsc, hsb, hscore, hst, ?_, hnext⟩
    · rw [hship]
      simp only [c1ship, c1invuln_quiet k h0 h90 h180 h270 hk,
        c1lives_quiet k h0 h90 h180 h270 hk]
    · rw [hast, c1asts_move]
    · simpa [hgo] using (by omega : 181 ≤ k ↔ 181 ≤ k + 1)

theorem c1Reset_valid : c1Reset.Valid 2000 1000 := by
  refine ⟨?_, by norm_num [c1Reset], by norm_num [c1Reset]⟩
  intro i hi
  interval_cases i <;>
    norm_num [c1Reset, c1seed, AstSeed.Valid, avQ, AstVel.Valid]

theorem c1g0_reachable : Reachable 2000 1000 c1Init c1g0 :=
  Relation.ReflTransGen.single
    ⟨Ev.touch 0 c1Reset, ⟨le_refl 0, c1Reset_valid⟩, rfl⟩

theorem c1_shape0 : C1Shape 0 c1g0 := by
  unfold c1g0 applyTouch
  rw [if_pos (show (initState 2000 1000 c1Init).started = false from rfl)]
  refine ⟨?_, ?_, rfl, rfl, rfl, rfl, rfl, by norm_num, by norm_num [c1Reset]⟩
  · show Ship.init 2000 1000 c1Reset.a0 = c1ship 0
    norm_num [Ship.init, c1ship, c1lives, c1invuln, c1Reset]
  · show resetAsteroids c1Reset.seeds = c1asts 0
    show resetAsteroids c1seed = c1asts 0
    unfold resetAsteroids
    rw [show List.range 5 = [0, 1, 2, 3, 4] from rfl]
    norm_num [c1seed, mkAsteroid, avQ, c1asts]

theorem c1_shape_all (n : ℕ) (hn : n ≤ 271) :
    C1Shape n (ticksFrom 2000 1000 orcQ n c1g0) := by
  induction n with
  | zero => exact c1_shape0
  | succ n ih => exact c1_step n (by omega) _ (ih (by omega))

theorem c1final_reachable : Reachable 2000 1000 c1Init c1final :=
  reachable_ticksFrom 2000 1000 c1Init orcQ orcQ_valid c1g0 c1g0_reachable 271

theorem c1final_lives : c1final.ship.lives = -1 := by
  have h := (c1_shape_all 271 (le_refl 271)).1
  rw [show c1final = ticksFrom 2000 1000 orcQ 271 c1g0 from rfl, h]
  norm_num [c1ship, c1lives]

/-! ## Lives and game-over analysis of one tick -/
theorem ship_update_lives (w h cA sA : ℚ) (s : Ship) :
    (Ship.update w h cA sA s).lives = s.lives := rfl

theorem ship_update_invuln (w h cA sA : ℚ) (s : Ship) :
    (Ship.update w h cA sA s).invuln =
      (if 0 < s.invuln then s.invuln - 1 else s.invuln) := rfl

theorem ship_update_thrusting (w h cA sA : ℚ) (s : Ship) :
    (Ship.update w h cA sA s).thrusting = s.thrusting := rfl

/-- The two ship-collision phases of one tick, run back to back, either
leave the ship and the game-over flag alone, or (only when the ship was
vulnerable going in) cost exactly one life, recentre the ship, set 90
invulnerability frames, and raise gameOver exactly when the decremented
lives reach zero. -/
theorem pipeline_lives (w h : ℚ) (pd : ℕ → PDraw) (s1 : Ship)
    (sbs : List SaucerBullet) (asts : List Asteroid) (parts : List Particle)
    (go : Bool) :
    (shipVsAsteroids w h pd (shipVsSaucerBullets w h pd s1 sbs parts go).1 asts
        (shipVsSaucerBullets w h pd s1 sbs parts go).2.2.1
        (shipVsSaucerBullets w h pd s1 sbs parts go).2.2.2).1 = s1 ∧
      (shipVsAsteroids w h pd (shipVsSaucerBullets w h pd s1 sbs parts go).1 asts
        (shipVsSaucerBullets w h pd s1 sbs parts go).2.2.1
        (shipVsSaucerBullets w h pd s1 sbs parts go).2.2.2).2.2 = go ∨
    s1.invuln ≤ 0 ∧
      (shipVsAsteroids w h pd (shipVsSaucerBullets w h pd s1 sbs parts go).1 asts
        (shipVsSaucerBullets w h pd s1 sbs parts go).2.2.1
        (shipVsSaucerBullets w h pd s1 sbs parts go).2.2.2).1 =
        { s1 with lives := s1.lives - 1, x := w / 2, y := h / 2, vx := 0
                  vy := 0, invuln := 90 } ∧
      (shipVsAsteroids w h pd (shipVsSaucerBullets w h pd s1 sbs parts go).1 asts
        (shipVsSaucerBullets w h pd s1 sbs parts go).2.2.1
        (shipVsSaucerBullets w h pd s1 sbs parts go).2.2.2).2.2 =
        (if s1.lives - 1 ≤ 0 then true else go) := by
  by_cases hinv : s1.invuln ≤ 0
  · rw [shipVsSaucerBullets, if_pos hinv]
    cases hsb : findLastIdxElem
        (fun sb => distLt sb.x sb.y s1.x s1.y s1.r) sbs with
    | some jb =>
      right
      refine ⟨hinv, ?_, ?_⟩ <;>
        rw [shipVsAsteroids, if_neg (by simp)]
    | none =>
      by_cases hany : asts.any (fun a =>
          decide (distLt s1.x s1.y a.x a.y (s1.r + a.r))) = true
      · right
        refine ⟨hinv, ?_, ?_⟩ <;>
          rw [show ((s1, sbs, parts, go) :
              Ship × List SaucerBullet × List Particle × Bool).1 = s1 from rfl,
            shipVsAsteroids_hit w h pd s1 asts _ _ hinv hany]
      · left
        constructor <;>
          rw [shipVsAsteroids_miss w h pd s1 asts _ _
            (by simpa using hany)]
  · left
    rw [shipVsSaucerBullets_skip w h pd s1 sbs parts go (by omega)]
    constructor <;>
      rw [shipVsAsteroids_skip w h pd s1 asts parts go (by omega)]

/-- Consequences of pipeline_lives at the level of tickSim. -/
theorem tickSim_shipGo (w h now now2 : ℚ) (orc : TickOracle) (g : GameState) :
    ((tickSim w h now now2 orc g).ship =
        Ship.update w h orc.shipCos orc.shipSin g.ship ∧
      (tickSim w h now now2 orc g).gameOver = g.gameOver) ∨
    ((Ship.update w h orc.shipCos orc.shipSin g.ship).invuln ≤ 0 ∧
      (tickSim w h now now2 orc g).ship =
        { Ship.update w h orc.shipCos orc.shipSin g.ship with
            lives := g.ship.lives - 1, x := w / 2, y := h / 2, vx := 0
            vy := 0, invuln := 90 } ∧
      (tickSim w h now now2 orc g).gameOver =
        (if g.ship.lives - 1 ≤ 0 then true else g.gameOver)) := by
  have hp := pipeline_lives w h orc.shipPd
    (Ship.update w h orc.shipCos orc.shipSin g.ship)
    (((g.saucerBullets ++
        (runSaucers w h (now - g.lastTime) orc.saucerFd g.saucers 0).2).map
        (SaucerBullet.update w h)).filter (fun sb => decide sb.alive))
    (procBullets w h orc.bo
      ((g.bullets.map (Bullet.update w h)).filter (fun b => decide b.alive)) 0
      ⟨g.asteroids.map (Asteroid.update w h),
        (runSaucers w h (now - g.lastTime) orc.saucerFd g.saucers 0).1,
        g.particles, g.score⟩).2.1.asteroids
    (procBullets w h orc.bo
      ((g.bullets.map (Bullet.update w h)).filter (fun b => decide b.alive)) 0
      ⟨g.asteroids.map (Asteroid.update w h),
        (runSaucers w h (now - g.lastTime) orc.saucerFd g.saucers 0).1,
        g.particles, g.score⟩).2.1.particles
    g.gameOver
  rw [show (Ship.update w h orc.shipCos orc.shipSin g.ship).lives =
    g.ship.lives from rfl] at hp
  exact hp

theorem tick_proj (w h now now2 : ℚ) (orc : TickOracle) (g : GameState)
    (hst : g.started = true) :
    (tick w h now now2 orc g).ship.lives =
        (tickSim w h now now2 orc g).ship.lives ∧
      (tick w h now now2 orc g).ship.invuln =
        (tickSim w h now now2 orc g).ship.invuln ∧
      (tick w h now now2 orc g).gameOver =
        (tickSim w h now now2 orc g).gameOver := by
  rw [tick, if_neg (by rw [hst]; simp)]
  by_cases hgo : (tickSim w h now now2 orc g).gameOver = true
  · rw [if_pos hgo]
    exact ⟨rfl, rfl, rfl⟩
  · rw [if_neg hgo]
    exact ⟨rfl, rfl, rfl⟩

theorem livesInv_tick (w h now now2 : ℚ) (orc : TickOracle) (g : GameState)
    (hI : LivesInv g) : LivesInv (tick w h now now2 orc g) := by
  by_cases hst : g.started = false
  · rw [tick, if_pos hst]
    intro hgo
    exact hI hgo
  · have hst2 : g.started = true := by revert hst; cases g.started <;> simp
    obtain ⟨hl, _, hgo⟩ := tick_proj w h now now2 orc g hst2
    intro hfalse
    rw [hgo] at hfalse
    rw [hl]
    rcases tickSim_shipGo w h now now2 orc g with ⟨hs, hg⟩ | ⟨_, hs, hg⟩
    · rw [hs, ship_update_lives]
      rw [hg] at hfalse
      exact hI hfalse
    · rw [hs]
      rw [hg] at hfalse
      by_cases hz : g.ship.lives - 1 ≤ 0
      · rw [if_pos hz] at hfalse
        exact absurd hfalse (by simp)
      · show 1 ≤ g.ship.lives - 1
        omega

theorem livesInv_touch (w h now : ℚ) (d : ResetDraws) (g : GameState)
    (hI : LivesInv g) : LivesInv (applyTouch w h now d g) := by
  rw [applyTouch]
  split_ifs with h1 h2
  · intro _; norm_num [Ship.init]
  · intro _; norm_num [Ship.init]
  · exact hI

theorem livesInv_shoot (w h cc ss : ℚ) (g : GameState)
    (hI : LivesInv g) : LivesInv (applyShoot w h cc ss g) := by
  rw [applyShoot]
  split_ifs with h1
  · exact hI
  · intro hgo; exact hI hgo

theorem livesInv_step (w h : ℚ) (g g2 : GameState) (hs : step w h g g2)
    (hI : LivesInv g) : LivesInv g2 := by
  obtain ⟨e, _, rfl⟩ := hs
  cases e with
  | tick now now2 orc => exact livesInv_tick w h now now2 orc g hI
  | touch now d => exact livesInv_touch w h now d g hI
  | shoot cc ss => exact livesInv_shoot w h cc ss g hI
  | thrustSet b => intro hgo; exact hI hgo
  | rotSet q => intro hgo; exact hI hgo

theorem livesInv_reachable (w h : ℚ) (d : InitDraws) (g : GameState)
    (hr : Reachable w h d g) : LivesInv g := by
  induction hr with
  | refl => intro _; norm_num [initState, Ship.init]
  | tail _ hstep ih => exact livesInv_step w h _ _ hstep ih

theorem tickSim_gameOver_mono (w h now now2 : ℚ) (orc : TickOracle)
    (g : GameState) (hgo : g.gameOver = true) :
    (tickSim w h now now2 orc g).gameOver = true := by
  rcases tickSim_shipGo w h now now2 orc g with ⟨_, hg⟩ | ⟨_, _, hg⟩
  · rw [hg, hgo]
  · rw [hg, hgo]
    split <;> rfl

/-! ## Claim C1 -/
/-- C1, counterexample: a reachable state of the simulation (screen
2000 x 1000, the starting tap at time 0, then 271 frames) in which the
Ship has -1 lives, refuting "in every reachable state of the simulation,
ship.lives >= 0": after the third hit raises gameOver at tick 181 the
loop keeps simulating, and a fourth hit at tick 271 drives lives to -1. -/
theorem C1_counterexample :
    Reachable 2000 1000 c1Init c1final ∧ c1final.ship.lives < 0 :=
  ⟨c1final_reachable, by rw [c1final_lives]; norm_num⟩

/-- C1, amended: in every reachable state, while the game-over flag is
down the lives count is at least 1, and whenever lives have reached zero
or less the game is already in GameOver; reaching zero lives does raise
gameOver in the very tick of the fatal hit.  Lives can, however, keep
falling below zero afterwards because the loop continues simulating in
GameOver (see the counterexample). -/
theorem C1_amended (w h : ℚ) (d : InitDraws) (g : GameState)
    (hr : Reachable w h d g) :
    (g.gameOver = false → 1 ≤ g.ship.lives) ∧
      (g.ship.lives ≤ 0 → g.gameOver = true) := by
  have hI := livesInv_reachable w h d g hr
  refine ⟨hI, fun hle => ?_⟩
  by_cases hgo : g.gameOver = true
  · exact hgo
  · have h1 := hI (by revert hgo; cases g.gameOver <;> simp)
    omega

/-- C1, witness: the amended statement instantiated at the freshly
initialised module state, which is reachable by the empty event
sequence. -/
theorem C1_witness :
    ((initState 2000 1000 c1Init).gameOver = false →
      1 ≤ (initState 2000 1000 c1Init).ship.lives) ∧
    ((initState 2000 1000 c1Init).ship.lives ≤ 0 →
      (initState 2000 1000 c1Init).gameOver = true) :=
  C1_amended 2000 1000 c1Init (initState 2000 1000 c1Init)
    Relation.ReflTransGen.refl

theorem c2state_quiet : QuietTick 2000 1000 16 c2state := by
  refine ⟨rfl, rfl, rfl, rfl, rfl, rfl, rfl, rfl, by norm_num [c2state],
    by norm_num [c2state], by norm_num [c2state], by norm_num [c2state],
    by norm_num [c2state], ?_⟩
  intro a ha
  simp only [c2state, List.mem_cons, List.not_mem_nil, or_false] at ha
  subst ha
  norm_num

/-- C2, counterexample: a tick of the main loop taken in the GameOver
state does not leave the simulation state unchanged - the asteroid field
advances (here the single asteroid moves from x = 500 to x = 501), because
the loop body only draws an overlay on top of the still-running
simulation. -/
theorem C2_counterexample :
    c2state.started = true ∧ c2state.gameOver = true ∧
      (tick 2000 1000 16 16 orcQ c2state).asteroids ≠ c2state.asteroids := by
  refine ⟨rfl, rfl, ?_⟩
  rw [tick_quiet 2000 1000 16 16 orcQ c2state (by norm_num) (by norm_num)
    c2state_quiet (by norm_num [c2state])]
  intro hcontra
  norm_num [c2state, moveAst, Asteroid.mk.injEq] at hcontra

/-- C2, amended: a tick taken in GameOver runs exactly the same simulation
pass tickSim as a Playing tick (entity updates, collisions, pruning,
spawning), then draws the overlay and forces the thrust flag off; the
game-over flag stays raised.  Only the splash state (started = false)
freezes the simulation. -/
theorem C2_amended (w h now now2 : ℚ) (orc : TickOracle) (g : GameState)
    (hst : g.started = true) (hgo : g.gameOver = true) :
    tick w h now now2 orc g =
      { tickSim w h now now2 orc g with
          ship := { (tickSim w h now now2 orc g).ship with thrusting := false } } ∧
      (tick w h now now2 orc g).gameOver = true := by
  have hmono := tickSim_gameOver_mono w h now now2 orc g hgo
  rw [tick, if_neg (by rw [hst]; simp), if_pos hmono]
  exact ⟨rfl, hmono⟩

/-- C2, witness: the amended statement at the concrete game-over state
c2state; the tick advances the asteroid while keeping gameOver up. -/
theorem C2_witness :
    tick 2000 1000 16 16 orcQ c2state =
      { tickSim 2000 1000 16 16 orcQ c2state with
          ship := { (tickSim 2000 1000 16 16 orcQ c2state).ship with
                      thrusting := false } } ∧
      (tick 2000 1000 16 16 orcQ c2state).gameOver = true :=
  C2_amended 2000 1000 16 16 orcQ c2state rfl rfl

/-! ## Claim C7 -/
/-- C7, amended: measured after the per-tick decrement - equivalently,
when the counter entered the tick strictly greater than 1 - no collision
reduces lives in that tick; in every tick lives drop by at most one, and
any tick that reduces lives leaves the counter at the respawn value 90. -/
theorem C7_amended (w h now now2 : ℚ) (orc : TickOracle) (g : GameState) :
    (1 < g.ship.invuln →
      (tick w h now now2 orc g).ship.lives = g.ship.lives) ∧
    ((tick w h now now2 orc g).ship.lives = g.ship.lives ∨
      ((tick w h now now2 orc g).ship.lives = g.ship.lives - 1 ∧
        (tick w h now now2 orc g).ship.invuln = 90)) := by
  by_cases hst : g.started = false
  · rw [tick, if_pos hst]
    exact ⟨fun _ => rfl, Or.inl rfl⟩
  · have hst2 : g.started = true := by revert hst; cases g.started <;> simp
    obtain ⟨hl, hv, _⟩ := tick_proj w h now now2 orc g hst2
    constructor
    · intro hgt
      rw [hl]
      rcases tickSim_shipGo w h now now2 orc g with ⟨hs, _⟩ | ⟨hinv, _, _⟩
      · rw [hs, ship_update_lives]
      · exfalso
        rw [ship_update_invuln, if_pos (by omega)] at hinv
        omega
    · rcases tickSim_shipGo w h now now2 orc g with ⟨hs, _⟩ | ⟨_, hs, _⟩
      · left; rw [hl, hs, ship_update_lives]
      · right
        constructor
        · rw [hl, hs]
        · rw [hv, hs]

theorem c7state_quiet : QuietTick 2000 1000 16 c7state := by
  refine ⟨rfl, rfl, rfl, rfl, rfl, rfl, rfl, rfl, by norm_num [c7state],
    by norm_num [c7state], by norm_num [c7state], by norm_num [c7state],
    by norm_num [c7state], ?_⟩
  intro a ha
  simp only [c7state, List.mem_cons, List.not_mem_nil, or_false] at ha
  subst ha
  norm_num

/-- C7, counterexample: with the counter strictly positive (equal to 1) at
the start of the tick, a collision still reduces lives in that same tick,
because Ship.update decrements the counter to 0 before the collision
phases are evaluated.  This refutes the claim read at tick granularity. -/
theorem C7_counterexample :
    0 < c7state.ship.invuln ∧
      (tick 2000 1000 16 16 orcQ c7state).ship.lives < c7state.ship.lives := by
  refine ⟨by norm_num [c7state], ?_⟩
  rw [tick_shipHit 2000 1000 16 16 orcQ c7state (by norm_num) (by norm_num)
    c7state_quiet (Or.inr (by norm_num [c7state])) ?_]
  · norm_num [c7state]
  · refine List.any_eq_true.mpr ⟨⟨1000, 500, 30, 1, 0, 0⟩, ?_, ?_⟩
    · simp [c7state, moveAst]
      norm_num
    · exact decide_eq_true (by norm_num [distLt, c7state])

/-- C7, witness: the amended statement at a concrete state with counter 5:
the tick leaves lives untouched. -/
theorem C7_witness :
    (1 < c7wstate.ship.invuln ∧
      (tick 2000 1000 16 16 orcQ c7wstate).ship.lives = c7wstate.ship.lives) ∧
    ((tick 2000 1000 16 16 orcQ c7wstate).ship.lives = c7wstate.ship.lives ∨
      ((tick 2000 1000 16 16 orcQ c7wstate).ship.lives =
          c7wstate.ship.lives - 1 ∧
        (tick 2000 1000 16 16 orcQ c7wstate).ship.invuln = 90)) := by
  have h := C7_amended 2000 1000 16 16 orcQ c7wstate
  exact ⟨⟨by norm_num [c7wstate], h.1 (by norm_num [c7wstate])⟩, h.2⟩

/-! ## Claim C4 -/
theorem mul0995_lb (v b : ℚ) (hb : 0 < b) (hv : -b ≤ v) : -b ≤ v * 0.995 := by
  nlinarith

/-- C4, amended: the wrap invariant 0 ≤ x < W and 0 ≤ y < H after update
holds for the Ship, player Bullets, Asteroids and SaucerBullets (under the
in-play bounds on the incoming position, step size and direction draws),
but not for every entity other than Particles: the Saucer never wraps its
x coordinate (see the counterexample). -/
theorem C4_amended (w h : ℚ) (hw : 0 < w) (hh : 0 < h) :
    (∀ (cA sA : ℚ) (s : Ship), 0 ≤ s.x → 0 ≤ s.y →
      |s.vx| + 1 ≤ w → |s.vy| + 1 ≤ h → |cA| ≤ 1 → |sA| ≤ 1 →
      0 ≤ (Ship.update w h cA sA s).x ∧ (Ship.update w h cA sA s).x < w ∧
      0 ≤ (Ship.update w h cA sA s).y ∧ (Ship.update w h cA sA s).y < h) ∧
    (∀ b : Bullet, 0 ≤ b.x → 0 ≤ b.y → |b.dx| ≤ w → |b.dy| ≤ h →
      0 ≤ (Bullet.update w h b).x ∧ (Bullet.update w h b).x < w ∧
      0 ≤ (Bullet.update w h b).y ∧ (Bullet.update w h b).y < h) ∧
    (∀ a : Asteroid, 0 ≤ a.x → 0 ≤ a.y → |a.dx| ≤ w → |a.dy| ≤ h →
      0 ≤ (Asteroid.update w h a).x ∧ (Asteroid.update w h a).x < w ∧
      0 ≤ (Asteroid.update w h a).y ∧ (Asteroid.update w h a).y < h) ∧
    (∀ sb : SaucerBullet, 0 ≤ sb.x → 0 ≤ sb.y → |sb.dx| ≤ w → |sb.dy| ≤ h →
      0 ≤ (SaucerBullet.update w h sb).x ∧ (SaucerBullet.update w h sb).x < w ∧
      0 ≤ (SaucerBullet.update w h sb).y ∧ (SaucerBullet.update w h sb).y < h) := by
  refine ⟨?_, ?_, ?_, ?_⟩
  · intro cA sA s hx hy hvx hvy hcA hsA
    have hxa := abs_le.mp (show |s.vx| ≤ w - 1 by linarith)
    have hya := abs_le.mp (show |s.vy| ≤ h - 1 by linarith)
    have hca := abs_le.mp hcA
    have hsa := abs_le.mp hsA
    have hvx2 : -w ≤ (if s.thrusting then s.vx + 0.08 * cA else s.vx) * 0.995 := by
      refine mul0995_lb _ w hw ?_
      split <;> nlinarith
    have hvy2 : -h ≤ (if s.thrusting then s.vy + 0.08 * sA else s.vy) * 0.995 := by
      refine mul0995_lb _ h hh ?_
      split <;> nlinarith
    have h1 := wrapX_bounds w
      (s.x + (if s.thrusting then s.vx + 0.08 * cA else s.vx) * 0.995) hw
      (by linarith)
    have h2 := wrapY_bounds h
      (s.y + (if s.thrusting then s.vy + 0.08 * sA else s.vy) * 0.995) hh
      (by linarith)
    exact ⟨h1.1, h1.2, h2.1, h2.2⟩
  · intro b hx hy hdx hdy
    have hxa := abs_le.mp hdx
    have hya := abs_le.mp hdy
    have h1 := wrapX_bounds w (b.x + b.dx) hw (by linarith)
    have h2 := wrapY_bounds h (b.y + b.dy) hh (by linarith)
    exact ⟨h1.1, h1.2, h2.1, h2.2⟩
  · intro a hx hy hdx hdy
    have hxa := abs_le.mp hdx
    have hya := abs_le.mp hdy
    have h1 := wrapX_bounds w (a.x + a.dx) hw (by linarith)
    have h2 := wrapY_bounds h (a.y + a.dy) hh (by linarith)
    exact ⟨h1.1, h1.2, h2.1, h2.2⟩
  · intro sb hx hy hdx hdy
    have hxa := abs_le.mp hdx
    have hya := abs_le.mp hdy
    have h1 := wrapX_bounds w (sb.x + sb.dx) hw (by linarith)
    have h2 := wrapY_bounds h (sb.y + sb.dy) hh (by linarith)
    exact ⟨h1.1, h1.2, h2.1, h2.2⟩

/-- C4, counterexample: the Saucer - an entity that is not a Particle -
violates the claimed wrap invariant: built by its constructor from a valid
draw it starts at x = -60, and after an update with dt = 16ms it sits at
x = -58.56, still outside [0, W); Saucer.update never wraps x. -/
theorem C4_counterexample :
    SaucerDraw.Valid 1000 ⟨-1, 100, 3/2, 600⟩ ∧
      (Saucer.update 2000 1000 16 ⟨600, 1, 0⟩ c4saucer).1.x < 0 := by
  constructor
  · norm_num [SaucerDraw.Valid]
  · rw [Saucer.update]
    norm_num [c4saucer, mkSaucer]

/-- C4, witness: the amended statement instantiated on a 100 x 100 screen
at a resting ship in the centre and a bullet, an asteroid and a saucer
bullet at (50, 50) with step (6, 0): all four stay inside the screen. -/
theorem C4_witness :
    (0 ≤ (Ship.update 100 100 1 0 ⟨50, 50, 0, 15, 0, 0, 0, false, 3, 0⟩).x ∧
      (Ship.update 100 100 1 0 ⟨50, 50, 0, 15, 0, 0, 0, false, 3, 0⟩).x < 100 ∧
      0 ≤ (Ship.update 100 100 1 0 ⟨50, 50, 0, 15, 0, 0, 0, false, 3, 0⟩).y ∧
      (Ship.update 100 100 1 0 ⟨50, 50, 0, 15, 0, 0, 0, false, 3, 0⟩).y < 100) ∧
    (0 ≤ (Bullet.update 100 100 ⟨50, 50, 6, 0, 0, 150⟩).x ∧
      (Bullet.update 100 100 ⟨50, 50, 6, 0, 0, 150⟩).x < 100 ∧
      0 ≤ (Bullet.update 100 100 ⟨50, 50, 6, 0, 0, 150⟩).y ∧
      (Bullet.update 100 100 ⟨50, 50, 6, 0, 0, 150⟩).y < 100) ∧
    (0 ≤ (Asteroid.update 100 100 ⟨50, 50, 30, 1, 0, 0⟩).x ∧
      (Asteroid.update 100 100 ⟨50, 50, 30, 1, 0, 0⟩).x < 100 ∧
      0 ≤ (Asteroid.update 100 100 ⟨50, 50, 30, 1, 0, 0⟩).y ∧
      (Asteroid.update 100 100 ⟨50, 50, 30, 1, 0, 0⟩).y < 100) ∧
    (0 ≤ (SaucerBullet.update 100 100 ⟨50, 50, 6, 0, 0, 150⟩).x ∧
      (SaucerBullet.update 100 100 ⟨50, 50, 6, 0, 0, 150⟩).x < 100 ∧
      0 ≤ (SaucerBullet.update 100 100 ⟨50, 50, 6, 0, 0, 150⟩).y ∧
      (SaucerBullet.update 100 100 ⟨50, 50, 6, 0, 0, 150⟩).y < 100) := by
  obtain ⟨h1, h2, h3, h4⟩ := C4_amended 100 100 (by norm_num) (by norm_num)
  exact ⟨h1 1 0 ⟨50, 50, 0, 15, 0, 0, 0, false, 3, 0⟩ (by norm_num) (by norm_num)
      (by norm_num) (by norm_num) (by norm_num) (by norm_num),
    h2 ⟨50, 50, 6, 0, 0, 150⟩ (by norm_num) (by norm_num) (by norm_num)
      (by norm_num),
    h3 ⟨50, 50, 30, 1, 0, 0⟩ (by norm_num) (by norm_num) (by norm_num)
      (by norm_num),
    h4 ⟨50, 50, 6, 0, 0, 150⟩ (by norm_num) (by norm_num) (by norm_num)
      (by norm_num)⟩

/-! ## Claim C5 -/
/-- C5: a Bullet built by the constructor and advanced by any number of
updates is alive exactly while its accumulated distance is strictly below
max(W, H) * 1.5, and not alive exactly once the accumulator reaches or
exceeds that bound (the stored maxDist never changes after construction).
The alive getter of the source reads two fields and writes nothing, which
the model reflects by making it a pure predicate: querying it any number
of times cannot change the bullet. -/
theorem C5_bullet_alive (w h x y cc ss : ℚ) (n : ℕ) :
    (((Bullet.update w h)^[n] (mkBullet w h x y cc ss)).alive ↔
      ((Bullet.update w h)^[n] (mkBullet w h x y cc ss)).dist < max w h * 1.5) ∧
    ((Bullet.update w h)^[n] (mkBullet w h x y cc ss)).maxDist =
      max w h * 1.5 := by
  have hmax : ((Bullet.update w h)^[n] (mkBullet w h x y cc ss)).maxDist =
      max w h * 1.5 := by
    induction n with
    | zero => rfl
    | succ n ih => rw [Function.iterate_succ_apply']; exact ih
  exact ⟨by rw [Bullet.alive, hmax], hmax⟩

/-! ## Claim C10 -/
/-- C10: Saucer.update is not gated on liveness: a left-entering saucer
whose move carries it past w + 80 has its alive flag cleared in this very
call, and when its fire timer has run out the same call still resets the
timer and emits a SaucerBullet from the saucer position (aimed at the
ship through the direction draw f). -/
theorem C10_fires_while_dead (w h dt : ℚ) (f : SaucerFire) (sc : Saucer)
    (hside : sc.side < 0)
    (hexit : w + 80 < sc.x + sc.speed * (dt / (1000 / 60)))
    (hft : sc.fireTimer - dt ≤ 0) :
    (Saucer.update w h dt f sc).1.alive = false ∧
    (Saucer.update w h dt f sc).1.fireTimer = f.interval ∧
    (Saucer.update w h dt f sc).2 =
      some (mkSaucerBullet w h (sc.x + sc.speed * (dt / (1000 / 60))) sc.y
        f.cc f.ss) := by
  rw [Saucer.update]
  simp only [if_pos hft]
  refine ⟨?_, trivial, trivial⟩
  rw [if_neg (by rintro ⟨h1, _⟩; omega), if_pos ⟨hside, hexit⟩]

/-- C10, witness: a concrete left-entering saucer just inside the exit
margin with 10ms left on its fire timer, updated with dt = 16ms: it dies
and fires in the same call. -/
theorem C10_witness :
    (Saucer.update 1000 1000 16 ⟨700, 1, 0⟩ ⟨-1, 1079, 100, 3/2, 18, 10, true⟩).1.alive
        = false ∧
    (Saucer.update 1000 1000 16 ⟨700, 1, 0⟩ ⟨-1, 1079, 100, 3/2, 18, 10, true⟩).1.fireTimer
        = (⟨700, 1, 0⟩ : SaucerFire).interval ∧
    (Saucer.update 1000 1000 16 ⟨700, 1, 0⟩ ⟨-1, 1079, 100, 3/2, 18, 10, true⟩).2 =
      some (mkSaucerBullet 1000 1000
        ((⟨-1, 1079, 100, 3/2, 18, 10, true⟩ : Saucer).x +
          (⟨-1, 1079, 100, 3/2, 18, 10, true⟩ : Saucer).speed * (16 / (1000 / 60)))
        (⟨-1, 1079, 100, 3/2, 18, 10, true⟩ : Saucer).y 1 0) :=
  C10_fires_while_dead 1000 1000 16 ⟨700, 1, 0⟩ ⟨-1, 1079, 100, 3/2, 18, 10, true⟩
    (by norm_num) (by norm_num) (by norm_num)

theorem c3_bullets1 :
    (c3state.bullets.map (Bullet.update 2000 1000)).filter
      (fun b => decide b.alive) = [⟨501, 300, 6, 0, 6, 3000⟩] := by
  have h6 : hypot 6 0 = 6 := hypot_pyth 6 0 6 (by norm_num) (by norm_num)
  have hb : Bullet.update 2000 1000 ⟨495, 300, 6, 0, 0, 3000⟩ =
      ⟨501, 300, 6, 0, 6, 3000⟩ := by
    rw [Bullet.update]
    rw [show (495 : ℚ) + 6 = 501 by norm_num, show (300 : ℚ) + 0 = 300 by norm_num,
      wrapX_id 2000 501 (by norm_num) (by norm_num) (by norm_num),
      wrapY_id 1000 300 (by norm_num) (by norm_num) (by norm_num), h6]
    norm_num
  show ([⟨495, 300, 6, 0, 0, 3000⟩].map (Bullet.update 2000 1000)).filter
      (fun b => decide b.alive) = [⟨501, 300, 6, 0, 6, 3000⟩]
  rw [List.map_cons, List.map_nil, hb, List.filter_cons,
    if_pos (decide_eq_true (show Bullet.alive ⟨501, 300, 6, 0, 6, 3000⟩ by
      norm_num [Bullet.alive]))]
  rfl

theorem c3_asteroids1 :
    c3state.asteroids.map (Asteroid.update 2000 1000) =
      [⟨501, 300, 20, 1, 0, 0⟩] := by
  have ha : Asteroid.update 2000 1000 ⟨500, 300, 20, 1, 0, 0⟩ =
      ⟨501, 300, 20, 1, 0, 0⟩ := by
    rw [Asteroid.update]
    rw [show (500 : ℚ) + 1 = 501 by norm_num, show (300 : ℚ) + 0 = 300 by norm_num,
      wrapX_id 2000 501 (by norm_num) (by norm_num) (by norm_num),
      wrapY_id 1000 300 (by norm_num) (by norm_num) (by norm_num)]
  show [(⟨500, 300, 20, 1, 0, 0⟩ : Asteroid)].map (Asteroid.update 2000 1000) =
      [⟨501, 300, 20, 1, 0, 0⟩]
  rw [List.map_cons, List.map_nil, ha]

theorem c3_find :
    findLastIdxElem (fun a : Asteroid =>
        distLt (501 : ℚ) 300 a.x a.y a.r) [⟨501, 300, 20, 1, 0, 0⟩] =
      some (0, ⟨501, 300, 20, 1, 0, 0⟩) := by
  rw [findLastIdxElem, findLastIdxElem]
  rw [if_pos (show distLt (501 : ℚ) 300 501 300 20 by norm_num [distLt])]

theorem c3_proc :
    procBullets 2000 1000 orcQ.bo [⟨501, 300, 6, 0, 6, 3000⟩] 0
      ⟨[⟨501, 300, 20, 1, 0, 0⟩], [], [], 0⟩ =
    ([], ⟨[], [], explodeAt 501 300 10 (orcQ.bo.astPd 0), 100⟩, 1, 0) := by
  rw [procBullets, procBullets]
  rw [show findLastIdxElem (fun a : Asteroid =>
      distLt (Bullet.x ⟨501, 300, 6, 0, 6, 3000⟩) (Bullet.y ⟨501, 300, 6, 0, 6, 3000⟩)
        a.x a.y a.r) [⟨501, 300, 20, 1, 0, 0⟩] =
      some (0, ⟨501, 300, 20, 1, 0, 0⟩) from c3_find]
  norm_num

theorem c3_tickSim :
    tickSim 2000 1000 16 16 orcQ c3state =
      { ship := ⟨1000, 500, 0, 15, 0, 0, 0, false, 3, 0⟩, bullets := []
        asteroids := []
        particles := particleStep (explodeAt 501 300 10 (orcQ.bo.astPd 0))
        saucers := [], saucerBullets := [], score := 100, started := true
        gameOver := false, lastTime := 16, saucerNextSpawn := 30000 } := by
  have hship : Ship.update 2000 1000 orcQ.shipCos orcQ.shipSin c3state.ship =
      ⟨1000, 500, 0, 15, 0, 0, 0, false, 3, 0⟩ := by
    rw [ship_update_coast 2000 1000 _ _ _ rfl rfl rfl rfl (by norm_num)
      (by norm_num) (by norm_num [c3state]) (by norm_num [c3state])
      (by norm_num [c3state]) (by norm_num [c3state])]
    norm_num [c3state]
  rw [tickSim, hship, c3_bullets1, c3_asteroids1]
  rw [show runSaucers 2000 1000 (16 - c3state.lastTime) orcQ.saucerFd
      c3state.saucers 0 = ([], []) from rfl]
  rw [show c3state.particles = [] from rfl, show c3state.score = (0 : ℤ) from rfl,
    show c3state.saucerBullets = [] from rfl,
    show c3state.gameOver = false from rfl]
  simp only [List.append_nil, List.map_nil, List.filter_nil]
  rw [c3_proc]
  rw [shipVsSaucerBullets_none]
  rw [shipVsAsteroids_miss _ _ _ _ _ _ _ (by simp)]
  rw [maybeSpawnSaucer_none _ _ _ _ _ _ (by norm_num [c3state])]
  rfl

theorem tick_empty_asteroids (w h now now2 : ℚ) (orc : TickOracle)
    (g : GameState) (ha : g.asteroids = []) (hb : g.bullets = [])
    (hsc : g.saucers = []) : (tick w h now now2 orc g).asteroids = [] := by
  rw [tick]
  split
  · exact ha
  · have hsim : (tickSim w h now now2 orc g).asteroids = [] := by
      rw [tickSim]
      show (procBullets w h orc.bo _ 0 _).2.1.asteroids = []
      rw [hb, ha, hsc]
      rfl
    change (if (tickSim w h now now2 orc g).gameOver = true
        then { tickSim w h now now2 orc g with
                 ship := { (tickSim w h now now2 orc g).ship with
                             thrusting := false } }
        else tickSim w h now now2 orc g).asteroids = []
    split
    · exact hsim
    · exact hsim

/-- C3: the full-featured loop never refills the asteroid field.  From a
playing state holding one last asteroid of radius 20 and a bullet about to
destroy it, one tick leaves the asteroid collection empty while the game
stays in the Playing state, and it remains empty on the next tick: the
refill that claim C3 (and the first variant of game.js at its line 216)
describes does not exist in this loop. -/
theorem C3_no_refill :
    c3state.started = true ∧ c3state.gameOver = false ∧
    (tick 2000 1000 16 16 orcQ c3state).asteroids = [] ∧
    (tick 2000 1000 16 16 orcQ c3state).started = true ∧
    (tick 2000 1000 16 16 orcQ c3state).gameOver = false ∧
    (tick 2000 1000 16 16 orcQ
      (tick 2000 1000 16 16 orcQ c3state)).asteroids = [] := by
  have htick : tick 2000 1000 16 16 orcQ c3state =
      { ship := ⟨1000, 500, 0, 15, 0, 0, 0, false, 3, 0⟩, bullets := []
        asteroids := []
        particles := particleStep (explodeAt 501 300 10 (orcQ.bo.astPd 0))
        saucers := [], saucerBullets := [], score := 100, started := true
        gameOver := false, lastTime := 16, saucerNextSpawn := 30000 } := by
    rw [tick, if_neg (by simp [c3state]), c3_tickSim]
    rfl
  refine ⟨rfl, rfl, ?_, ?_, ?_, ?_⟩
  · rw [htick]
  · rw [htick]
  · rw [htick]
  · rw [htick]
    exact tick_empty_asteroids 2000 1000 16 16 orcQ _ rfl rfl rfl

/-! ## Claim C6 -/
theorem findLastIdxElem_spec {α : Type} (p : α → Prop) [DecidablePred p] :
    ∀ (l : List α) (j : ℕ) (x : α),
      findLastIdxElem p l = some (j, x) → j < l.length ∧ p x := by
  intro l
  induction l with
  | nil => intro j x h; simp [findLastIdxElem] at h
  | cons a as ih =>
    intro j x h
    rw [findLastIdxElem] at h
    cases hta : findLastIdxElem p as with
    | some kx =>
      rw [hta] at h
      obtain ⟨k, y⟩ := kx
      simp only [Option.some.injEq, Prod.mk.injEq] at h
      obtain ⟨hj, hx⟩ := h
      obtain ⟨hlt, hp⟩ := ih k y hta
      subst hj
      subst hx
      exact ⟨by simpa using Nat.succ_lt_succ hlt, hp⟩
    | none =>
      rw [hta] at h
      by_cases hpa : p a
      · rw [if_pos hpa] at h
        simp only [Option.some.injEq, Prod.mk.injEq] at h
        obtain ⟨hj, hx⟩ := h
        subst hj
        subst hx
        exact ⟨by simp, hpa⟩
      · rw [if_neg hpa] at h
        exact absurd h (by simp)

/-- C6: in the bullet-collision loop, when the bullet of index i finds a
hit (the scan from the top index finding asteroid a at index j), the
bullet is consumed (the survivors are exactly the survivors of the
remaining bullets), the score grows by exactly 100, the struck asteroid is
removed, and exactly two children - each of radius a.r / 2 - are appended
when a.r exceeds the split threshold 20, none otherwise; the
asteroid-kill counter steps by one. -/
theorem C6_split (w h : ℚ) (orc : BulletOracle) (b : Bullet)
    (rest : List Bullet) (i : ℕ) (st : HitSt) (j : ℕ) (a : Asteroid)
    (hfind : findLastIdxElem (fun a2 => distLt b.x b.y a2.x a2.y a2.r)
      (procBullets w h orc rest (i + 1) st).2.1.asteroids = some (j, a)) :
    (procBullets w h orc (b :: rest) i st).1 =
        (procBullets w h orc rest (i + 1) st).1 ∧
    (procBullets w h orc (b :: rest) i st).2.1.score =
        (procBullets w h orc rest (i + 1) st).2.1.score + 100 ∧
    (procBullets w h orc (b :: rest) i st).2.1.asteroids.length =
        (procBullets w h orc rest (i + 1) st).2.1.asteroids.length - 1 +
          (if 20 < a.r then 2 else 0) ∧
    ((procBullets w h orc (b :: rest) i st).2.1.asteroids.drop
        ((procBullets w h orc rest (i + 1) st).2.1.asteroids.length - 1)).length
        = (if 20 < a.r then 2 else 0) ∧
    (∀ c ∈ (procBullets w h orc (b :: rest) i st).2.1.asteroids.drop
        ((procBullets w h orc rest (i + 1) st).2.1.asteroids.length - 1),
      c.r = a.r / 2) ∧
    (procBullets w h orc (b :: rest) i st).2.2.1 =
        (procBullets w h orc rest (i + 1) st).2.2.1 + 1 := by
  obtain ⟨hlt, _⟩ := findLastIdxElem_spec _ _ j a hfind
  have hlen : ((procBullets w h orc rest (i + 1) st).2.1.asteroids.eraseIdx
      j).length =
      (procBullets w h orc rest (i + 1) st).2.1.asteroids.length - 1 := by
    rw [List.length_eraseIdx, if_pos hlt]
  simp only [procBullets, hfind]
  refine ⟨trivial, trivial, ?_, ?_, ?_, trivial⟩
  · rw [List.length_append, hlen]
    split_ifs <;> simp
  · rw [List.drop_left' hlen]
    split_ifs <;> rfl
  · rw [List.drop_left' hlen]
    intro c hc
    split_ifs at hc with hr
    · simp only [List.mem_cons, List.not_mem_nil, or_false] at hc
      rcases hc with rfl | rfl <;> rfl
    · simp at hc

/-- C6, witness: from a single-asteroid field of radius 40 and a bullet on
its centre: the bullet is consumed, the score grows 100, the asteroid is
removed and replaced by exactly two children of radius 20. -/
theorem C6_witness :
    (procBullets 2000 1000 orcQ.bo [⟨500, 500, 6, 0, 6, 3000⟩] 0
        ⟨[⟨500, 500, 40, 1, 0, 0⟩], [], [], 0⟩).1 =
      (procBullets 2000 1000 orcQ.bo [] 1
        ⟨[⟨500, 500, 40, 1, 0, 0⟩], [], [], 0⟩).1 ∧
    (procBullets 2000 1000 orcQ.bo [⟨500, 500, 6, 0, 6, 3000⟩] 0
        ⟨[⟨500, 500, 40, 1, 0, 0⟩], [], [], 0⟩).2.1.score =
      (procBullets 2000 1000 orcQ.bo [] 1
        ⟨[⟨500, 500, 40, 1, 0, 0⟩], [], [], 0⟩).2.1.score + 100 ∧
    (procBullets 2000 1000 orcQ.bo [⟨500, 500, 6, 0, 6, 3000⟩] 0
        ⟨[⟨500, 500, 40, 1, 0, 0⟩], [], [], 0⟩).2.1.asteroids.length =
      (procBullets 2000 1000 orcQ.bo [] 1
        ⟨[⟨500, 500, 40, 1, 0, 0⟩], [], [], 0⟩).2.1.asteroids.length - 1 +
        (if 20 < (⟨500, 500, 40, 1, 0, 0⟩ : Asteroid).r then 2 else 0) ∧
    ((procBullets 2000 1000 orcQ.bo [⟨500, 500, 6, 0, 6, 3000⟩] 0
        ⟨[⟨500, 500, 40, 1, 0, 0⟩], [], [], 0⟩).2.1.asteroids.drop
        ((procBullets 2000 1000 orcQ.bo [] 1
          ⟨[⟨500, 500, 40, 1, 0, 0⟩], [], [], 0⟩).2.1.asteroids.length - 1)).length
      = (if 20 < (⟨500, 500, 40, 1, 0, 0⟩ : Asteroid).r then 2 else 0) ∧
    (∀ c ∈ (procBullets 2000 1000 orcQ.bo [⟨500, 500, 6, 0, 6, 3000⟩] 0
        ⟨[⟨500, 500, 40, 1, 0, 0⟩], [], [], 0⟩).2.1.asteroids.drop
        ((procBullets 2000 1000 orcQ.bo [] 1
          ⟨[⟨500, 500, 40, 1, 0, 0⟩], [], [], 0⟩).2.1.asteroids.length - 1),
      c.r = (⟨500, 500, 40, 1, 0, 0⟩ : Asteroid).r / 2) ∧
    (procBullets 2000 1000 orcQ.bo [⟨500, 500, 6, 0, 6, 3000⟩] 0
        ⟨[⟨500, 500, 40, 1, 0, 0⟩], [], [], 0⟩).2.2.1 =
      (procBullets 2000 1000 orcQ.bo [] 1
        ⟨[⟨500, 500, 40, 1, 0, 0⟩], [], [], 0⟩).2.2.1 + 1 :=
  C6_split 2000 1000 orcQ.bo ⟨500, 500, 6, 0, 6, 3000⟩ [] 0
    ⟨[⟨500, 500, 40, 1, 0, 0⟩], [], [], 0⟩ 0 ⟨500, 500, 40, 1, 0, 0⟩
    (by rw [show (procBullets 2000 1000 orcQ.bo [] 1
        ⟨[⟨500, 500, 40, 1, 0, 0⟩], [], [], 0⟩).2.1.asteroids =
        [⟨500, 500, 40, 1, 0, 0⟩] from rfl, findLastIdxElem, findLastIdxElem,
      if_pos (show distLt (Bullet.x ⟨500, 500, 6, 0, 6, 3000⟩)
          (Bullet.y ⟨500, 500, 6, 0, 6, 3000⟩) 500 500 40 by
        norm_num [distLt])])

/-! ## Claim C8 -/
/-- C8: a touch received while started and in GameOver performs exactly
the reset the Splash-to-Playing touch performs - the two handler branches
produce states identical in every field except the untouched lastTime -
and that reset zeroes the score, installs a fresh 3-lives ship, clears
every transient collection, re-seeds exactly 5 asteroids, draws the next
saucer deadline from now, and moves the machine to Playing. -/
theorem C8_restart_reset (w h now : ℚ) (d : ResetDraws) (g g0 : GameState)
    (hst : g.started = true) (hgo : g.gameOver = true)
    (h0 : g0.started = false) :
    applyTouch w h now d g =
        { applyTouch w h now d g0 with lastTime := g.lastTime } ∧
    (applyTouch w h now d g).score = 0 ∧
    (applyTouch w h now d g).ship = Ship.init w h d.a0 ∧
    (applyTouch w h now d g).ship.lives = 3 ∧
    (applyTouch w h now d g).bullets = [] ∧
    (applyTouch w h now d g).saucers = [] ∧
    (applyTouch w h now d g).saucerBullets = [] ∧
    (applyTouch w h now d g).particles = [] ∧
    (applyTouch w h now d g).asteroids = resetAsteroids d.seeds ∧
    (applyTouch w h now d g).asteroids.length = 5 ∧
    (applyTouch w h now d g).saucerNextSpawn = now + d.delay ∧
    (applyTouch w h now d g).started = true ∧
    (applyTouch w h now d g).gameOver = false := by
  have hg : applyTouch w h now d g =
      { g with gameOver := false, started := true, score := 0
               ship := Ship.init w h d.a0, bullets := []
               asteroids := resetAsteroids d.seeds, saucers := []
               saucerBullets := [], particles := []
               saucerNextSpawn := now + d.delay } := by
    rw [applyTouch, if_neg (by rw [hst]; simp), if_pos hgo]
  have hg0 : applyTouch w h now d g0 =
      { g0 with started := true, gameOver := false, score := 0
                ship := Ship.init w h d.a0, bullets := []
                asteroids := resetAsteroids d.seeds, saucers := []
                saucerBullets := [], particles := []
                saucerNextSpawn := now + d.delay } := by
    rw [applyTouch, if_pos h0]
  rw [hg, hg0]
  refine ⟨rfl, rfl, rfl, rfl, rfl, rfl, rfl, rfl, rfl, ?_, rfl, rfl, rfl⟩
  simp [resetAsteroids]

/-- C8, witness: the restart reset at the concrete game-over state c8over
against the freshly initialised module state. -/
theorem C8_witness :
    applyTouch 2000 1000 100 c1Reset c8over =
        { applyTouch 2000 1000 100 c1Reset (initState 2000 1000 c1Init) with
            lastTime := c8over.lastTime } ∧
    (applyTouch 2000 1000 100 c1Reset c8over).score = 0 ∧
    (applyTouch 2000 1000 100 c1Reset c8over).ship =
      Ship.init 2000 1000 c1Reset.a0 ∧
    (applyTouch 2000 1000 100 c1Reset c8over).ship.lives = 3 ∧
    (applyTouch 2000 1000 100 c1Reset c8over).bullets = [] ∧
    (applyTouch 2000 1000 100 c1Reset c8over).saucers = [] ∧
    (applyTouch 2000 1000 100 c1Reset c8over).saucerBullets = [] ∧
    (applyTouch 2000 1000 100 c1Reset c8over).particles = [] ∧
    (applyTouch 2000 1000 100 c1Reset c8over).asteroids =
      resetAsteroids c1Reset.seeds ∧
    (applyTouch 2000 1000 100 c1Reset c8over).asteroids.length = 5 ∧
    (applyTouch 2000 1000 100 c1Reset c8over).saucerNextSpawn =
      100 + c1Reset.delay ∧
    (applyTouch 2000 1000 100 c1Reset c8over).started = true ∧
    (applyTouch 2000 1000 100 c1Reset c8over).gameOver = false :=
  C8_restart_reset 2000 1000 100 c1Reset c8over (initState 2000 1000 c1Init)
    rfl rfl rfl

/-! ## Claim C9 -/
/-- The bullet-collision loop adds exactly 100 per asteroid kill and 1000
per saucer kill to the score, and nothing else. -/
theorem procBullets_score (w h : ℚ) (orc : BulletOracle) (bs : List Bullet) :
    ∀ (i : ℕ) (st : HitSt),
      (procBullets w h orc bs i st).2.1.score =
        st.score + 100 * ((procBullets w h orc bs i st).2.2.1 : ℤ) +
          1000 * ((procBullets w h orc bs i st).2.2.2 : ℤ) := by
  induction bs with
  | nil => intro i st; simp [procBullets]
  | cons b rest ih =>
    intro i st
    have ihr := ih (i + 1) st
    simp only [procBullets]
    cases hA : findLastIdxElem (fun a2 => distLt b.x b.y a2.x a2.y a2.r)
        (procBullets w h orc rest (i + 1) st).2.1.asteroids with
    | some ja =>
      obtain ⟨j, a⟩ := ja
      simp only
      push_cast
      push_cast at ihr
      linarith
    | none =>
      cases hS : findLastIdxElem (fun sc => distLt b.x b.y sc.x sc.y sc.r)
          (procBullets w h orc rest (i + 1) st).2.1.saucers with
      | some js =>
        obtain ⟨j, sc⟩ := js
        simp only
        push_cast
        push_cast at ihr
        linarith
      | none => simpa using ihr

/-- Every bullet is either a survivor or accounts for exactly one kill. -/
theorem procBullets_len (w h : ℚ) (orc : BulletOracle) (bs : List Bullet) :
    ∀ (i : ℕ) (st : HitSt),
      (procBullets w h orc bs i st).1.length +
        (procBullets w h orc bs i st).2.2.1 +
        (procBullets w h orc bs i st).2.2.2 = bs.length := by
  induction bs with
  | nil => intro i st; simp [procBullets]
  | cons b rest ih =>
    intro i st
    have ihr := ih (i + 1) st
    simp only [procBullets]
    cases hA : findLastIdxElem (fun a2 => distLt b.x b.y a2.x a2.y a2.r)
        (procBullets w h orc rest (i + 1) st).2.1.asteroids with
    | some ja =>
      obtain ⟨j, a⟩ := ja
      simp only [List.length_cons]
      omega
    | none =>
      cases hS : findLastIdxElem (fun sc => distLt b.x b.y sc.x sc.y sc.r)
          (procBullets w h orc rest (i + 1) st).2.1.saucers with
      | some js =>
        obtain ⟨j, sc⟩ := js
        simp only [List.length_cons]
        omega
      | none =>
        simp only [List.length_cons]
        omega

/-- Saucer kills counted by the loop are exactly the saucers removed. -/
theorem procBullets_saucers (w h : ℚ) (orc : BulletOracle) (bs : List Bullet) :
    ∀ (i : ℕ) (st : HitSt),
      (procBullets w h orc bs i st).2.1.saucers.length +
        (procBullets w h orc bs i st).2.2.2 = st.saucers.length := by
  induction bs with
  | nil => intro i st; simp [procBullets]
  | cons b rest ih =>
    intro i st
    have ihr := ih (i + 1) st
    simp only [procBullets]
    cases hA : findLastIdxElem (fun a2 => distLt b.x b.y a2.x a2.y a2.r)
        (procBullets w h orc rest (i + 1) st).2.1.asteroids with
    | some ja =>
      obtain ⟨j, a⟩ := ja
      simpa using ihr
    | none =>
      cases hS : findLastIdxElem (fun sc => distLt b.x b.y sc.x sc.y sc.r)
          (procBullets w h orc rest (i + 1) st).2.1.saucers with
      | some js =>
        obtain ⟨j, sc⟩ := js
        obtain ⟨hlt, _⟩ := findLastIdxElem_spec _ _ j sc hS
        simp only [List.length_eraseIdx, if_pos hlt]
        omega
      | none => simpa using ihr

theorem tick_score_proj (w h now now2 : ℚ) (orc : TickOracle) (g : GameState)
    (hst : g.started = true) :
    (tick w h now now2 orc g).score = (tickSim w h now now2 orc g).score := by
  rw [tick, if_neg (by rw [hst]; simp)]
  by_cases hgo : (tickSim w h now now2 orc g).gameOver = true
  · rw [if_pos hgo]
  · rw [if_neg hgo]

/-- C9, amended: within one tick the score changes by exactly 100 per
asteroid kill plus 1000 per saucer kill of the bullet-collision phase
(and so never decreases); each kill consumes exactly one bullet and each
saucer kill removes exactly one saucer; the shooting and steering inputs
never change the score; but the start/restart tap is an exception to
monotonicity: a touch received in GameOver resets the score to 0. -/
theorem C9_amended (w h now now2 : ℚ) (orc : TickOracle) (g : GameState) :
    (tick w h now now2 orc g).score =
        g.score + 100 * ((tickKills w h now orc g).1 : ℤ) +
          1000 * ((tickKills w h now orc g).2 : ℤ) ∧
    g.score ≤ (tick w h now now2 orc g).score ∧
    (∀ (bs : List Bullet) (i : ℕ) (st : HitSt),
      (procBullets w h orc.bo bs i st).1.length +
        (procBullets w h orc.bo bs i st).2.2.1 +
        (procBullets w h orc.bo bs i st).2.2.2 = bs.length) ∧
    (∀ (bs : List Bullet) (i : ℕ) (st : HitSt),
      (procBullets w h orc.bo bs i st).2.1.saucers.length +
        (procBullets w h orc.bo bs i st).2.2.2 = st.saucers.length) ∧
    (∀ cc ss : ℚ, (applyShoot w h cc ss g).score = g.score) ∧
    (∀ b : Bool, (setThrusting b g).score = g.score) ∧
    (∀ q : ℚ, (setRot q g).score = g.score) ∧
    (g.started = true → g.gameOver = true →
      ∀ (nowT : ℚ) (d : ResetDraws), (applyTouch w h nowT d g).score = 0) := by
  have hmain : (tick w h now now2 orc g).score =
      g.score + 100 * ((tickKills w h now orc g).1 : ℤ) +
        1000 * ((tickKills w h now orc g).2 : ℤ) := by
    by_cases hsp : g.started = false
    · rw [tick, if_pos hsp, tickKills, if_pos hsp]
      push_cast
      ring
    · have hst : g.started = true := by revert hsp; cases g.started <;> simp
      rw [tick_score_proj w h now now2 orc g hst, tickKills,
        if_neg (by rw [hst]; simp)]
      exact procBullets_score w h orc.bo _ 0 _
  refine ⟨hmain, ?_, procBullets_len w h orc.bo, procBullets_saucers w h orc.bo,
    ?_, fun b => rfl, fun q => rfl, ?_⟩
  · rw [hmain]
    have h1 : (0 : ℤ) ≤ ((tickKills w h now orc g).1 : ℤ) := Int.natCast_nonneg _
    have h2 : (0 : ℤ) ≤ ((tickKills w h now orc g).2 : ℤ) := Int.natCast_nonneg _
    linarith
  · intro cc ss
    rw [applyShoot]
    split_ifs <;> rfl
  · intro hst hgo nowT d
    rw [applyTouch, if_neg (by rw [hst]; simp), if_pos hgo]

/-- C9, witness: the amended statement at the concrete state c9wstate,
with the restart-resets-score clause discharged. -/
theorem C9_witness :
    (tick 2000 1000 16 16 orcQ c9wstate).score =
        c9wstate.score + 100 * ((tickKills 2000 1000 16 orcQ c9wstate).1 : ℤ) +
          1000 * ((tickKills 2000 1000 16 orcQ c9wstate).2 : ℤ) ∧
    (applyTouch 2000 1000 50 c1Reset c9wstate).score = 0 := by
  have h := C9_amended 2000 1000 16 16 orcQ c9wstate
  exact ⟨h.1, h.2.2.2.2.2.2.2 rfl rfl 50 c1Reset⟩

theorem c9Reset_valid : c9Reset.Valid 2000 1000 := by
  refine ⟨?_, by norm_num [c9Reset], by norm_num [c9Reset]⟩
  intro i hi
  interval_cases i <;>
    norm_num [c9Reset, c9seed, AstSeed.Valid, avQ, AstVel.Valid]

theorem c9g1_reachable : Reachable 2000 1000 c9Init c9g1 := by
  refine Relation.ReflTransGen.tail (Relation.ReflTransGen.single
    ⟨Ev.touch 0 c9Reset, ⟨le_refl 0, c9Reset_valid⟩, rfl⟩) ?_
  exact ⟨Ev.shoot 1 0, by norm_num [Ev.Valid], rfl⟩

theorem c9g1_eq : c9g1 =
    { ship := ⟨1000, 500, 0, 15, 0, 0, 0, false, 3, 0⟩
      bullets := [⟨1015, 500, 6, 0, 0, 3000⟩]
      asteroids := [⟨1040, 500, 30, 1, 0, 0⟩, ⟨959, 500, 26, 1, 0, 0⟩,
        ⟨869, 500, 26, 1, 0, 0⟩, ⟨779, 500, 26, 1, 0, 0⟩,
        ⟨1000, 100, 30, 1, 0, 0⟩]
      particles := [], saucers := [], saucerBullets := [], score := 0
      started := true, gameOver := false, lastTime := 0
      saucerNextSpawn := 30000 } := by
  have htouch : applyTouch 2000 1000 0 c9Reset (initState 2000 1000 c9Init) =
      { ship := Ship.init 2000 1000 0
        bullets := [], asteroids := resetAsteroids c9seed
        particles := [], saucers := [], saucerBullets := [], score := 0
        started := true, gameOver := false, lastTime := 0
        saucerNextSpawn := 0 + 30000 } := by
    rw [applyTouch,
      if_pos (show (initState 2000 1000 c9Init).started = false from rfl)]
    rfl
  rw [c9g1, htouch, applyShoot]
  rw [if_neg (by simp)]
  have hres : resetAsteroids c9seed =
      [(⟨1040, 500, 30, 1, 0, 0⟩ : Asteroid), ⟨959, 500, 26, 1, 0, 0⟩,
        ⟨869, 500, 26, 1, 0, 0⟩, ⟨779, 500, 26, 1, 0, 0⟩,
        ⟨1000, 100, 30, 1, 0, 0⟩] := by
    unfold resetAsteroids
    rw [show List.range 5 = [0, 1, 2, 3, 4] from rfl]
    norm_num [c9seed, mkAsteroid, avQ]
  have hship : Ship.init 2000 1000 0 =
      (⟨1000, 500, 0, 15, 0, 0, 0, false, 3, 0⟩ : Ship) := by
    norm_num [Ship.init]
  have hbul : mkBullet 2000 1000
      ((Ship.init 2000 1000 0).x + 1 * (Ship.init 2000 1000 0).r)
      ((Ship.init 2000 1000 0).y + 0 * (Ship.init 2000 1000 0).r) 1 0 =
      ⟨1015, 500, 6, 0, 0, 3000⟩ := by
    norm_num [mkBullet, Ship.init]
  rw [hres, hship]
  simp only [List.nil_append]
  norm_num [mkBullet]

theorem asteroid_update_concrete (x y r dx dy ns x2 y2 : ℚ)
    (hx : x + dx = x2) (hy : y + dy = y2) (hx0 : 0 ≤ x2) (hx1 : x2 < 2000)
    (hy0 : 0 ≤ y2) (hy1 : y2 < 1000) :
    Asteroid.update 2000 1000 ⟨x, y, r, dx, dy, ns⟩ = ⟨x2, y2, r, dx, dy, ns⟩ := by
  rw [Asteroid.update]
  show (⟨wrapX 2000 (x + dx), wrapY 1000 (y + dy), r, dx, dy, ns⟩ : Asteroid) = _
  rw [hx, hy, wrapX_id 2000 x2 (by norm_num) hx0 hx1,
    wrapY_id 1000 y2 (by norm_num) hy0 hy1]

theorem c9_bullets1 :
    (([⟨1015, 500, 6, 0, 0, 3000⟩] : List Bullet).map
      (Bullet.update 2000 1000)).filter (fun b => decide b.alive) =
      [⟨1021, 500, 6, 0, 6, 3000⟩] := by
  have h6 : hypot 6 0 = 6 := hypot_pyth 6 0 6 (by norm_num) (by norm_num)
  have hb : Bullet.update 2000 1000 ⟨1015, 500, 6, 0, 0, 3000⟩ =
      ⟨1021, 500, 6, 0, 6, 3000⟩ := by
    rw [Bullet.update]
    rw [show (1015 : ℚ) + 6 = 1021 by norm_num,
      show (500 : ℚ) + 0 = 500 by norm_num,
      wrapX_id 2000 1021 (by norm_num) (by norm_num) (by norm_num),
      wrapY_id 1000 500 (by norm_num) (by norm_num) (by norm_num), h6]
    norm_num
  rw [List.map_cons, List.map_nil, hb, List.filter_cons,
    if_pos (decide_eq_true (show Bullet.alive ⟨1021, 500, 6, 0, 6, 3000⟩ by
      norm_num [Bullet.alive]))]
  rfl

theorem c9_asts1 :
    ([⟨1040, 500, 30, 1, 0, 0⟩, ⟨959, 500, 26, 1, 0, 0⟩,
      ⟨869, 500, 26, 1, 0, 0⟩, ⟨779, 500, 26, 1, 0, 0⟩,
      ⟨1000, 100, 30, 1, 0, 0⟩] : List Asteroid).map
        (Asteroid.update 2000 1000) =
      [⟨1041, 500, 30, 1, 0, 0⟩, ⟨960, 500, 26, 1, 0, 0⟩,
        ⟨870, 500, 26, 1, 0, 0⟩, ⟨780, 500, 26, 1, 0, 0⟩,
        ⟨1001, 100, 30, 1, 0, 0⟩] := by
  simp only [List.map_cons, List.map_nil]
  rw [asteroid_update_concrete 1040 500 30 1 0 0 1041 500 (by norm_num)
      (by norm_num) (by norm_num) (by norm_num) (by norm_num) (by norm_num),
    asteroid_update_concrete 959 500 26 1 0 0 960 500 (by norm_num)
      (by norm_num) (by norm_num) (by norm_num) (by norm_num) (by norm_num),
    asteroid_update_concrete 869 500 26 1 0 0 870 500 (by norm_num)
      (by norm_num) (by norm_num) (by norm_num) (by norm_num) (by norm_num),
    asteroid_update_concrete 779 500 26 1 0 0 780 500 (by norm_num)
      (by norm_num) (by norm_num) (by norm_num) (by norm_num) (by norm_num),
    asteroid_update_concrete 1000 100 30 1 0 0 1001 100 (by norm_num)
      (by norm_num) (by norm_num) (by norm_num) (by norm_num) (by norm_num)]

theorem c9_find1 :
    findLastIdxElem (fun a : Asteroid =>
        distLt (Bullet.x ⟨1021, 500, 6, 0, 6, 3000⟩)
          (Bullet.y ⟨1021, 500, 6, 0, 6, 3000⟩) a.x a.y a.r)
      [⟨1041, 500, 30, 1, 0, 0⟩, ⟨960, 500, 26, 1, 0, 0⟩,
        ⟨870, 500, 26, 1, 0, 0⟩, ⟨780, 500, 26, 1, 0, 0⟩,
        ⟨1001, 100, 30, 1, 0, 0⟩] =
      some (0, ⟨1041, 500, 30, 1, 0, 0⟩) := by
  rw [findLastIdxElem, findLastIdxElem, findLastIdxElem, findLastIdxElem,
    findLastIdxElem, findLastIdxElem]
  rw [if_neg (show ¬distLt (1021 : ℚ) 500 1001 100 30 by norm_num [distLt]),
    if_neg (show ¬distLt (1021 : ℚ) 500 780 500 26 by norm_num [distLt]),
    if_neg (show ¬distLt (1021 : ℚ) 500 870 500 26 by norm_num [distLt]),
    if_neg (show ¬distLt (1021 : ℚ) 500 960 500 26 by norm_num [distLt]),
    if_pos (show distLt (1021 : ℚ) 500 1041 500 30 by norm_num [distLt])]

theorem c9_proc1 :
    procBullets 2000 1000 orcQ.bo [⟨1021, 500, 6, 0, 6, 3000⟩] 0
      ⟨[⟨1041, 500, 30, 1, 0, 0⟩, ⟨960, 500, 26, 1, 0, 0⟩,
        ⟨870, 500, 26, 1, 0, 0⟩, ⟨780, 500, 26, 1, 0, 0⟩,
        ⟨1001, 100, 30, 1, 0, 0⟩], [], [], 0⟩ =
    ([], ⟨[⟨960, 500, 26, 1, 0, 0⟩, ⟨870, 500, 26, 1, 0, 0⟩,
        ⟨780, 500, 26, 1, 0, 0⟩, ⟨1001, 100, 30, 1, 0, 0⟩,
        ⟨1045, 504, 15, 1, 0, 0⟩, ⟨1037, 496, 15, 1, 0, 0⟩], [],
      explodeAt 1041 500 10 (orcQ.bo.astPd 0), 100⟩, 1, 0) := by
  rw [procBullets, procBullets, c9_find1]
  norm_num [mkAsteroid, orcQ, avQ, List.eraseIdx]

theorem c9g1_eq2 : c9g1 = c9G1 := c9g1_eq

/-- The first C9 tick in full: the bullet kills the front asteroid
(+100, two radius-15 children), and the second asteroid, moved to x=960,
strikes the vulnerable ship: one life lost, recentre, 90 frames of
invulnerability. -/
theorem c9_tickSim1 :
    tickSim 2000 1000 16 16 orcQ c9G1 =
      { ship := ⟨1000, 500, 0, 15, 0, 0, 0, false, 2, 90⟩, bullets := []
        asteroids := [⟨960, 500, 26, 1, 0, 0⟩, ⟨870, 500, 26, 1, 0, 0⟩,
          ⟨780, 500, 26, 1, 0, 0⟩, ⟨1001, 100, 30, 1, 0, 0⟩,
          ⟨1045, 504, 15, 1, 0, 0⟩, ⟨1037, 496, 15, 1, 0, 0⟩]
        particles := particleStep (explodeAt 1041 500 10 (orcQ.bo.astPd 0) ++
          explodeAt 1000 500 20 orcQ.shipPd)
        saucers := [], saucerBullets := [], score := 100, started := true
        gameOver := false, lastTime := 16, saucerNextSpawn := 30000 } := by
  have hship : Ship.update 2000 1000 orcQ.shipCos orcQ.shipSin c9G1.ship =
      ⟨1000, 500, 0, 15, 0, 0, 0, false, 3, 0⟩ := by
    rw [ship_update_coast 2000 1000 _ _ _ rfl rfl rfl rfl (by norm_num)
      (by norm_num) (by norm_num [c9G1]) (by norm_num [c9G1])
      (by norm_num [c9G1]) (by norm_num [c9G1])]
    norm_num [c9G1]
  rw [tickSim, hship]
  rw [show c9G1.bullets = [⟨1015, 500, 6, 0, 0, 3000⟩] from rfl,
    show c9G1.asteroids = [⟨1040, 500, 30, 1, 0, 0⟩, ⟨959, 500, 26, 1, 0, 0⟩,
      ⟨869, 500, 26, 1, 0, 0⟩, ⟨779, 500, 26, 1, 0, 0⟩,
      ⟨1000, 100, 30, 1, 0, 0⟩] from rfl,
    c9_bullets1, c9_asts1]
  rw [show runSaucers 2000 1000 (16 - c9G1.lastTime) orcQ.saucerFd
      c9G1.saucers 0 = ([], []) from rfl]
  rw [show c9G1.particles = [] from rfl, show c9G1.score = (0 : ℤ) from rfl,
    show c9G1.saucerBullets = [] from rfl,
    show c9G1.gameOver = false from rfl]
  simp only [List.append_nil, List.map_nil, List.filter_nil, List.nil_append]
  rw [c9_proc1]
  rw [shipVsSaucerBullets_none]
  rw [shipVsAsteroids_hit _ _ _ _ _ _ _ (by norm_num)
    (List.any_eq_true.mpr ⟨⟨960, 500, 26, 1, 0, 0⟩, by norm_num,
      decide_eq_true (by norm_num [distLt])⟩)]
  rw [maybeSpawnSaucer_none _ _ _ _ _ _ (by norm_num [c9G1])]
  norm_num [c9G1, particleStep, List.map_append, List.filter_append]

theorem c9_shape1 : C9Shape 1 (ticksFrom 2000 1000 orcQ 1 c9g1) := by
  have h16 : ticksFrom 2000 1000 orcQ 1 c9g1 = tick 2000 1000 16 16 orcQ c9g1 := by
    show tick 2000 1000 (16 * (((0 : ℕ) : ℚ) + 1)) (16 * (((0 : ℕ) : ℚ) + 1))
        orcQ c9g1 = _
    norm_num
  rw [h16, c9g1_eq2, tick, if_neg (by simp [c9G1]), c9_tickSim1]
  refine ⟨?_, ?_, rfl, rfl, rfl, rfl, rfl, by norm_num, rfl⟩
  · show (⟨1000, 500, 0, 15, 0, 0, 0, false, 2, 90⟩ : Ship) = c9ship 1
    norm_num [c9ship, c9lives, c9invuln]
  · show [(⟨960, 500, 26, 1, 0, 0⟩ : Asteroid), ⟨870, 500, 26, 1, 0, 0⟩,
      ⟨780, 500, 26, 1, 0, 0⟩, ⟨1001, 100, 30, 1, 0, 0⟩,
      ⟨1045, 504, 15, 1, 0, 0⟩, ⟨1037, 496, 15, 1, 0, 0⟩] = c9asts 1
    norm_num [c9asts]

theorem c9asts_move (k : ℕ) : (c9asts k).map moveAst = c9asts (k + 1) := by
  simp only [c9asts, moveAst, List.map_cons, List.map_nil]
  push_cast
  norm_num
  refine ⟨?_, ?_, ?_, ?_, ?_, ?_⟩ <;> ring

theorem c9_quiet_pre (k : ℕ) (g : GameState) (hs : C9Shape k g) (hk : k ≤ 180) :
    QuietTick 2000 1000 (16 * ((k : ℚ) + 1)) g := by
  obtain ⟨hship, hast, hb, hsc, hsb, _, hst, _, hnext⟩ := hs
  have hkq : (k : ℚ) ≤ 180 := by exact_mod_cast hk
  refine ⟨hst, hb, hsc, hsb, ?_, ?_, ?_, ?_, ?_, ?_, ?_, ?_, ?_, ?_⟩
  · rw [hship]; rfl
  · rw [hship]; rfl
  · rw [hship]; rfl
  · rw [hship]; rfl
  · rw [hship]; norm_num [c9ship]
  · rw [hship]; norm_num [c9ship]
  · rw [hship]; norm_num [c9ship]
  · rw [hship]; norm_num [c9ship]
  · rw [hnext]; linarith
  · intro a ha
    rw [hast] at ha
    have hk0 : (0 : ℚ) ≤ (k : ℚ) := by positivity
    simp only [c9asts, List.mem_cons, List.not_mem_nil, or_false] at ha
    rcases ha with rfl | rfl | rfl | rfl | rfl | rfl <;>
      refine ⟨by norm_num; try linarith, by norm_num; try linarith,
        by norm_num, by norm_num⟩

theorem c9lives_quiet (k : ℕ) (h90 : k ≠ 90) (h180 : k ≠ 180)
    (hk : k < 181) : c9lives (k + 1) = c9lives k := by
  simp only [c9lives]; split_ifs <;> omega

theorem c9invuln_quiet (k : ℕ) (h90 : k ≠ 90) (h180 : k ≠ 180)
    (hk1 : 1 ≤ k) (hk : k < 181) : c9invuln (k + 1) = c9invuln k - 1 := by
  simp only [c9invuln]; split_ifs <;> omega

theorem c9invuln_ge2 (k : ℕ) (h90 : k ≠ 90) (h180 : k ≠ 180)
    (hk1 : 1 ≤ k) (hk : k < 181) : 2 ≤ c9invuln k := by
  simp only [c9invuln]; split_ifs <;> omega

theorem c9_step (k : ℕ) (hk1 : 1 ≤ k) (hk : k < 181) (g : GameState)
    (hs : C9Shape k g) :
    C9Shape (k + 1)
      (tick 2000 1000 (16 * ((k : ℚ) + 1)) (16 * ((k : ℚ) + 1)) orcQ g) := by
  have hq := c9_quiet_pre k g hs (by omega)
  obtain ⟨hship, hast, hb, hsc, hsb, hscore, hst, hgo, hnext⟩ := hs
  by_cases hhitk : k = 90 ∨ k = 180
  · -- a hit tick
    have hinv : g.ship.invuln = 0 ∨ g.ship.invuln = 1 := by
      rw [hship]
      rcases hhitk with rfl | rfl <;> norm_num [c9ship, c9invuln]
    have hhit : (g.asteroids.map moveAst).any (fun a =>
        decide (distLt g.ship.x g.ship.y a.x a.y (g.ship.r + a.r))) = true := by
      rw [hast, c9asts_move, hship]
      refine List.any_eq_true.mpr ?_
      rcases hhitk with rfl | rfl
      · exact ⟨⟨869 + ((90 : ℕ) : ℚ) + 1, 500, 26, 1, 0, 0⟩, by
          norm_num [c9asts], decide_eq_true (by norm_num [distLt, c9ship])⟩
      · exact ⟨⟨779 + ((180 : ℕ) : ℚ) + 1, 500, 26, 1, 0, 0⟩, by
          norm_num [c9asts], decide_eq_true (by norm_num [distLt, c9ship])⟩
    rw [tick_shipHit 2000 1000 _ _ orcQ g (by norm_num) (by norm_num) hq hinv hhit]
    refine ⟨?_, ?_, hb, hsc, hsb, hscore, hst, ?_, hnext⟩
    · rw [hship]
      rcases hhitk with rfl | rfl <;>
        simp [c9ship, c9lives, c9invuln] <;> norm_num
    · rw [hast, c9asts_move]
    · rw [hship]
      rcases hhitk with rfl | rfl
      · simp [c9ship, c9lives]
        simp_all
      · simp [c9ship, c9lives]
  · -- a quiet tick
    push_neg at hhitk
    obtain ⟨h90, h180⟩ := hhitk
    rw [tick_quiet 2000 1000 _ _ orcQ g (by norm_num) (by norm_num) hq
      (by rw [hship]; exact c9invuln_ge2 k h90 h180 hk1 hk)]
    refine ⟨?_, ?_, hb, hsc, hsb, hscore, hst, ?_, hnext⟩
    · rw [hship]
      simp only [c9ship, c9invuln_quiet k h90 h180 hk1 hk,
        c9lives_quiet k h90 h180 hk]
    · rw [hast, c9asts_move]
    · simpa [hgo] using (by omega : 181 ≤ k ↔ 181 ≤ k + 1)

theorem c9_shape_all (n : ℕ) (h1 : 1 ≤ n) (hn : n ≤ 181) :
    C9Shape n (ticksFrom 2000 1000 orcQ n c9g1) := by
  induction n with
  | zero => exact absurd h1 (by omega)
  | succ n ih =>
    by_cases hn0 : n = 0
    · subst hn0
      exact c9_shape1
    · exact c9_step n (by omega) (by omega) _ (ih (by omega) (by omega))

theorem c9final_reachable : Reachable 2000 1000 c9Init c9final :=
  reachable_ticksFrom 2000 1000 c9Init orcQ orcQ_valid c9g1 c9g1_reachable 181

/-- C9, counterexample: the score is not monotonically non-decreasing
over a play session.  A reachable game-over state carries score 100 (one
asteroid kill before three deaths), and the valid restart tap that
follows - another event of the same session - resets the score to 0,
strictly below 100. -/
theorem C9_counterexample :
    Reachable 2000 1000 c9Init c9final ∧
    c9final.started = true ∧ c9final.gameOver = true ∧
    c9final.score = 100 ∧
    (Ev.touch 3000 c9Reset).Valid 2000 1000 ∧
    Reachable 2000 1000 c9Init (applyEv 2000 1000 (Ev.touch 3000 c9Reset) c9final) ∧
    (applyEv 2000 1000 (Ev.touch 3000 c9Reset) c9final).score < c9final.score := by
  have hs := c9_shape_all 181 (by omega) (le_refl 181)
  have hst : c9final.started = true := hs.2.2.2.2.2.2.1
  have hgo : c9final.gameOver = true := hs.2.2.2.2.2.2.2.1.mpr (le_refl 181)
  have hscore : c9final.score = 100 := hs.2.2.2.2.2.1
  have htouch : (applyEv 2000 1000 (Ev.touch 3000 c9Reset) c9final).score = 0 := by
    show (applyTouch 2000 1000 3000 c9Reset c9final).score = 0
    rw [applyTouch, if_neg (by rw [hst]; simp), if_pos hgo]
  refine ⟨c9final_reachable, hst, hgo, hscore, ⟨by norm_num, c9Reset_valid⟩,
    ?_, ?_⟩
  · exact Relation.ReflTransGen.tail c9final_reachable
      ⟨Ev.touch 3000 c9Reset, ⟨by norm_num, c9Reset_valid⟩, rfl⟩
  · rw [htouch, hscore]
    norm_num

end Asteroids

